import Mathlib

/-!
Verification development for the ledger engine of the financial management
application (`src/firebase/database.js`).

The Firestore document store is shallowly embedded as an association-list
store keyed by natural-number document ids (Firestore auto-generated ids are
opaque tokens; we model allocation with a counter `Store.nextId`).  Tenant
ids (`userId` in the source) stay strings, since their validation
(`validateUserId` / `requireUserId`) inspects string contents.  JS numbers
are modelled as rationals.  Server timestamps (`createdAt` / `updatedAt`)
carry no information any claim depends on and are omitted from documents.

Every operation of the source file is translated to a function
`... → Store → Except DbErr α × Store`: the returned store reflects all
writes performed before the operation returned or threw, mirroring the JS
`async` functions whose awaited writes persist even when a later statement
throws.  Each `throw new Error(msg)` site becomes `Except.error` with a
`DbErr` constructor classifying the message (messages beginning
`Unauthorized` are authorization failures, `... not found` are not-found
failures, `Security error` marks the missing-userId guard, everything else
is validation).
-/

deriving instance DecidableEq for Except

/-- Error kinds, classifying the `throw new Error(...)` sites of the source. -/
inductive DbErr where
  | validationError (msg : String)
  | authorizationError (msg : String)
  | notFoundError (msg : String)
  | securityError (msg : String)
deriving DecidableEq, Repr

/-- Account document (collection `accounts`), timestamps omitted. -/
structure AccountDoc where
  userId : String
  accountType : String
  name : String
  totalBalance : Rat
  isFavorite : Bool
  color : String
deriving DecidableEq, Repr

/-- SubAccount document (collection `subAccounts`), timestamps omitted. -/
structure SubAccountDoc where
  userId : String
  accountId : Nat
  name : String
  balance : Rat
  isFavorite : Bool
  color : String
deriving DecidableEq, Repr

/-- Transaction document (collection `transactions`), timestamps omitted.
Optional fields are present only on transfer halves (or legacy records). -/
structure TransactionDoc where
  userId : String
  accountId : Nat
  subAccountId : Nat
  transactionType : String
  amount : Rat
  description : String
  category : String
  tags : List String
  transferType : Option String
  linkedTransactionId : Option Nat
  toAccountId : Option Nat
  toSubAccountId : Option Nat
  fromAccountId : Option Nat
  fromSubAccountId : Option Nat
deriving DecidableEq, Repr

/-- Favorite document (collection `favorites`), timestamps omitted. -/
structure FavoriteDoc where
  userId : String
  accountId : Option Nat
  subAccountId : Option Nat
  favoriteType : String
deriving DecidableEq, Repr

/-- The document store: one association list per collection plus the
id-allocation counter standing for Firestore id generation. -/
structure Store where
  accounts : List (Nat × AccountDoc)
  subAccounts : List (Nat × SubAccountDoc)
  transactions : List (Nat × TransactionDoc)
  favorites : List (Nat × FavoriteDoc)
  nextId : Nat
deriving DecidableEq, Repr

def Store.withAccounts (st : Store) (l : List (Nat × AccountDoc)) : Store :=
  Store.mk l st.subAccounts st.transactions st.favorites st.nextId

def Store.withSubAccounts (st : Store) (l : List (Nat × SubAccountDoc)) : Store :=
  Store.mk st.accounts l st.transactions st.favorites st.nextId

def Store.withTransactions (st : Store) (l : List (Nat × TransactionDoc)) : Store :=
  Store.mk st.accounts st.subAccounts l st.favorites st.nextId

def Store.withFavorites (st : Store) (l : List (Nat × FavoriteDoc)) : Store :=
  Store.mk st.accounts st.subAccounts st.transactions l st.nextId

def Store.withNextId (st : Store) (n : Nat) : Store :=
  Store.mk st.accounts st.subAccounts st.transactions st.favorites n

/-- Read a document by id (`getDoc`). -/
def lookupDoc {α : Type} : List (Nat × α) → Nat → Option α
  | [], _ => none
  | p :: l, i => if p.1 = i then some p.2 else lookupDoc l i

/-- Delete a document by id (`deleteDoc` / `batch.delete`). -/
def delDoc {α : Type} : List (Nat × α) → Nat → List (Nat × α)
  | [], _ => []
  | p :: l, i => if p.1 = i then delDoc l i else p :: delDoc l i

/-- Write a document at a given id (`batch.set`): replaces the
document if the id is present, appends it otherwise. -/
def setDoc {α : Type} : List (Nat × α) → Nat → α → List (Nat × α)
  | [], i, d => [(i, d)]
  | p :: l, i, d => if p.1 = i then (i, d) :: l else p :: setDoc l i d

theorem lookupDoc_setDoc_self {α : Type} (l : List (Nat × α)) (i : Nat) (d : α) :
    lookupDoc (setDoc l i d) i = some d := by
  induction l with
  | nil => simp [setDoc, lookupDoc]
  | cons p l ih =>
    by_cases h : p.1 = i
    · simp [setDoc, h, lookupDoc]
    · simp [setDoc, h, lookupDoc, ih]

theorem lookupDoc_setDoc_ne {α : Type} (l : List (Nat × α)) (i j : Nat) (d : α)
    (h : j ≠ i) : lookupDoc (setDoc l i d) j = lookupDoc l j := by
  induction l with
  | nil => simp [setDoc, lookupDoc, Ne.symm h]
  | cons p l ih =>
    by_cases hp : p.1 = i
    · have hij : i ≠ j := Ne.symm h
      have hpj : p.1 ≠ j := by
        rw [hp]; exact hij
      simp [setDoc, hp, lookupDoc, hij, hpj]
    · by_cases hq : p.1 = j
      · simp [setDoc, hp, lookupDoc, hq, h, Ne.symm h]
      · simp [setDoc, hp, lookupDoc, hq, ih]

theorem lookupDoc_delDoc_self {α : Type} (l : List (Nat × α)) (i : Nat) :
    lookupDoc (delDoc l i) i = none := by
  induction l with
  | nil => simp [delDoc, lookupDoc]
  | cons p l ih =>
    by_cases h : p.1 = i
    · simpa [delDoc, h] using ih
    · simp [delDoc, h, lookupDoc, ih]

theorem lookupDoc_delDoc_ne {α : Type} (l : List (Nat × α)) (i j : Nat)
    (h : j ≠ i) : lookupDoc (delDoc l i) j = lookupDoc l j := by
  induction l with
  | nil => simp [delDoc]
  | cons p l ih =>
    by_cases hp : p.1 = i
    · have hpj : p.1 ≠ j := by
        rw [hp]; exact Ne.symm h
      simp [delDoc, hp, lookupDoc, hpj, Ne.symm h, ih]
    · simp [delDoc, hp, lookupDoc, ih]

theorem mem_delDoc {α : Type} (l : List (Nat × α)) (i : Nat) (p : Nat × α) :
    p ∈ delDoc l i ↔ p ∈ l ∧ p.1 ≠ i := by
  induction l with
  | nil => simp [delDoc]
  | cons q l ih =>
    by_cases h : q.1 = i
    · simp only [delDoc, if_pos h, ih, List.mem_cons]
      constructor
      · rintro ⟨hm, hne⟩
        exact ⟨Or.inr hm, hne⟩
      · rintro ⟨hq | hm, hne⟩
        · subst hq
          exact absurd h hne
        · exact ⟨hm, hne⟩
    · simp only [delDoc, if_neg h, List.mem_cons, ih]
      constructor
      · rintro (hq | ⟨hm, hne⟩)
        · subst hq
          exact ⟨Or.inl rfl, h⟩
        · exact ⟨Or.inr hm, hne⟩
      · rintro ⟨hq | hm, hne⟩
        · subst hq
          exact Or.inl rfl
        · exact Or.inr ⟨hm, hne⟩

/-!
Validation helpers (`validateUserId`, `requireUserId`, `validateAmount`,
`validateAccountType`, `validateTransactionType`).  JS falsiness of a string
is emptiness; the `typeof` checks are enforced by the Lean types.  `NaN` has
no rational counterpart, so the `isNaN` guard has no residue here.
-/

/-- Whitespace trimming (`userId.trim()`), written structurally over the
character list so that it evaluates inside the kernel. -/
def strTrim (s : String) : String :=
  String.mk (((s.data.dropWhile Char.isWhitespace).reverse.dropWhile Char.isWhitespace).reverse)

def validateUserId (userId : String) : Except DbErr String :=
  if userId = "" then
    Except.error (DbErr.validationError "userId is required and cannot be null or undefined")
  else if strTrim userId = "" then
    Except.error (DbErr.validationError "userId cannot be an empty string")
  else
    Except.ok (strTrim userId)

def requireUserId (userId : String) : Except DbErr String :=
  if userId = "" then
    Except.error (DbErr.validationError "CRITICAL: userId is required for all database operations. User must be authenticated.")
  else
    validateUserId userId

def validateAmount (amount : Rat) : Except DbErr Rat :=
  if amount ≤ 0 then
    Except.error (DbErr.validationError "Invalid amount: must be a positive number")
  else
    Except.ok amount

def validAccountTypes : List String :=
  ["Asset", "Liability", "Income", "Expense", "Equity"]

def validateAccountType (accountType : String) : Except DbErr String :=
  if validAccountTypes.contains accountType then
    Except.ok accountType
  else
    Except.error (DbErr.validationError "Invalid accountType: must be one of Asset, Liability, Income, Expense, Equity")

def validTransactionTypes : List String :=
  ["Income", "Expense", "Transfer"]

def validateTransactionType (transactionType : String) : Except DbErr String :=
  if validTransactionTypes.contains transactionType then
    Except.ok transactionType
  else
    Except.error (DbErr.validationError "Invalid transactionType: must be one of Income, Expense, Transfer")

/-- A validated (trimmed, non-empty) tenant id is non-empty. -/
theorem requireUserId_ok_ne (T : String) (hT : requireUserId T = Except.ok T) :
    T ≠ "" := by
  intro h
  rw [h] at hT
  simp [requireUserId] at hT

/-!
Single-document reads.  Each re-verifies the returned document's `userId`
against the caller's validated id, in the order of the source: missing
document, then missing `userId` field (JS falsiness = empty string), then
ownership mismatch.
-/

def getAccount (userId : String) (accountId : Nat) (st : Store) :
    Except DbErr AccountDoc :=
  match requireUserId userId with
  | Except.error e => Except.error e
  | Except.ok v =>
    match lookupDoc st.accounts accountId with
    | none => Except.error (DbErr.notFoundError "Account not found")
    | some d =>
      if d.userId = "" then
        Except.error (DbErr.securityError "Security error: Account missing userId field")
      else if d.userId ≠ v then
        Except.error (DbErr.authorizationError "Unauthorized: Account does not belong to authenticated user")
      else
        Except.ok d

def getSubAccount (userId : String) (subAccountId : Nat) (st : Store) :
    Except DbErr SubAccountDoc :=
  match requireUserId userId with
  | Except.error e => Except.error e
  | Except.ok v =>
    match lookupDoc st.subAccounts subAccountId with
    | none => Except.error (DbErr.notFoundError "Sub-account not found")
    | some d =>
      if d.userId = "" then
        Except.error (DbErr.securityError "Security error: Sub-account missing userId field")
      else if d.userId ≠ v then
        Except.error (DbErr.authorizationError "Unauthorized: Sub-account does not belong to authenticated user")
      else
        Except.ok d

def getTransaction (userId : String) (transactionId : Nat) (st : Store) :
    Except DbErr TransactionDoc :=
  match requireUserId userId with
  | Except.error e => Except.error e
  | Except.ok v =>
    match lookupDoc st.transactions transactionId with
    | none => Except.error (DbErr.notFoundError "Transaction not found")
    | some d =>
      if d.userId = "" then
        Except.error (DbErr.securityError "Security error: Transaction missing userId field")
      else if d.userId ≠ v then
        Except.error (DbErr.authorizationError "Unauthorized: Transaction does not belong to authenticated user")
      else
        Except.ok d

/-!
Tenant-scoped list queries.  The source orders results (by name, by
transaction date); no claim depends on result order, so the store order is
kept.  The queries are called by the operations below with an
already-validated id, for which the re-validation performed by the JS
wrappers (`getSubAccountsByAccount` etc.) is the identity.
-/

def subAccountsByAccountQ (st : Store) (v : String) (accountId : Nat) :
    List (Nat × SubAccountDoc) :=
  st.subAccounts.filter (fun p => p.2.userId == v && p.2.accountId == accountId)

def transactionsBySubAccountQ (st : Store) (v : String) (subAccountId : Nat) :
    List (Nat × TransactionDoc) :=
  st.transactions.filter (fun p => p.2.userId == v && p.2.subAccountId == subAccountId)

def favoritesQ (st : Store) (v : String) : List (Nat × FavoriteDoc) :=
  st.favorites.filter (fun p => p.2.userId == v)

def favoritesByAccountQ (st : Store) (v : String) (accountId : Nat) :
    List (Nat × FavoriteDoc) :=
  (favoritesQ st v).filter (fun p => p.2.accountId == some accountId)

def favoritesBySubAccountQ (st : Store) (v : String) (subAccountId : Nat) :
    List (Nat × FavoriteDoc) :=
  (favoritesQ st v).filter (fun p => p.2.subAccountId == some subAccountId)

/-!
Partial-update payloads.  A JS update object is modelled with one `Option`
per known field: `some` means the key is present in the payload.
-/

/-- Partial update payload for a Transaction (`updateData` of
`updateTransaction`, and the propagated `linkedUpdates`). -/
structure TxnPatch where
  userId : Option String
  accountId : Option Nat
  subAccountId : Option Nat
  transactionType : Option String
  amount : Option Rat
  description : Option String
  category : Option String
  tags : Option (List String)
  transferType : Option String
deriving DecidableEq, Repr

def TxnPatch.withUserId (p : TxnPatch) (u : Option String) : TxnPatch :=
  TxnPatch.mk u p.accountId p.subAccountId p.transactionType p.amount p.description p.category p.tags p.transferType

def TxnPatch.withAccountId (p : TxnPatch) (a : Option Nat) : TxnPatch :=
  TxnPatch.mk p.userId a p.subAccountId p.transactionType p.amount p.description p.category p.tags p.transferType

def TxnPatch.withSubAccountId (p : TxnPatch) (s : Option Nat) : TxnPatch :=
  TxnPatch.mk p.userId p.accountId s p.transactionType p.amount p.description p.category p.tags p.transferType

/-- Merge an update payload into a stored Transaction (`updateDoc` /
`batch.update` semantics: present keys overwrite, absent keys are kept;
`linkedTransactionId` and the transfer endpoint fields are never part of an
update payload in the source). -/
def applyTxnPatch (d : TransactionDoc) (p : TxnPatch) : TransactionDoc :=
  TransactionDoc.mk
    (p.userId.getD d.userId)
    (p.accountId.getD d.accountId)
    (p.subAccountId.getD d.subAccountId)
    (p.transactionType.getD d.transactionType)
    (p.amount.getD d.amount)
    (p.description.getD d.description)
    (p.category.getD d.category)
    (p.tags.getD d.tags)
    (match p.transferType with
     | some t => some t
     | none => d.transferType)
    d.linkedTransactionId d.toAccountId d.toSubAccountId d.fromAccountId d.fromSubAccountId

/-- Partial update payload for an Account (`updateData` of `updateAccount`). -/
structure AccountPatch where
  userId : Option String
  accountType : Option String
  name : Option String
  totalBalance : Option Rat
  isFavorite : Option Bool
  color : Option String
deriving DecidableEq, Repr

def AccountPatch.withUserId (p : AccountPatch) (u : Option String) : AccountPatch :=
  AccountPatch.mk u p.accountType p.name p.totalBalance p.isFavorite p.color

def applyAccountPatch (d : AccountDoc) (p : AccountPatch) : AccountDoc :=
  AccountDoc.mk
    (p.userId.getD d.userId)
    (p.accountType.getD d.accountType)
    (p.name.getD d.name)
    (p.totalBalance.getD d.totalBalance)
    (p.isFavorite.getD d.isFavorite)
    (p.color.getD d.color)

/-- Partial update payload for a SubAccount (`updateData` of `updateSubAccount`). -/
structure SubAccountPatch where
  userId : Option String
  accountId : Option Nat
  name : Option String
  balance : Option Rat
  isFavorite : Option Bool
  color : Option String
deriving DecidableEq, Repr

def SubAccountPatch.withUserId (p : SubAccountPatch) (u : Option String) : SubAccountPatch :=
  SubAccountPatch.mk u p.accountId p.name p.balance p.isFavorite p.color

def SubAccountPatch.withAccountId (p : SubAccountPatch) (a : Option Nat) : SubAccountPatch :=
  SubAccountPatch.mk p.userId a p.name p.balance p.isFavorite p.color

def applySubAccountPatch (d : SubAccountDoc) (p : SubAccountPatch) : SubAccountDoc :=
  SubAccountDoc.mk
    (p.userId.getD d.userId)
    (p.accountId.getD d.accountId)
    (p.name.getD d.name)
    (p.balance.getD d.balance)
    (p.isFavorite.getD d.isFavorite)
    (p.color.getD d.color)

/-!
Atomic write batches (`writeBatch` / `batch.set` / `batch.update` /
`batch.delete` / `batch.commit`).  A batch is a list of operations applied in
order by a single commit; an operation that both reads and writes performs
all its reads before the one commit, exactly as the source does.
-/

inductive BatchOp where
  | setTransaction (id : Nat) (d : TransactionDoc)
  | updTransaction (id : Nat) (p : TxnPatch)
  | delTransaction (id : Nat)
  | delSubAccount (id : Nat)
  | delAccount (id : Nat)
  | delFavorite (id : Nat)
deriving DecidableEq, Repr

def applyBatchOp (st : Store) (op : BatchOp) : Store :=
  match op with
  | BatchOp.setTransaction i d => st.withTransactions (setDoc st.transactions i d)
  | BatchOp.updTransaction i p =>
    st.withTransactions
      (st.transactions.map (fun q => if q.1 = i then (q.1, applyTxnPatch q.2 p) else q))
  | BatchOp.delTransaction i => st.withTransactions (delDoc st.transactions i)
  | BatchOp.delSubAccount i => st.withSubAccounts (delDoc st.subAccounts i)
  | BatchOp.delAccount i => st.withAccounts (delDoc st.accounts i)
  | BatchOp.delFavorite i => st.withFavorites (delDoc st.favorites i)

def applyBatch (st : Store) (b : List BatchOp) : Store :=
  b.foldl applyBatchOp st

/-!
Balance recomputation (`recalculateSubAccountBalance`,
`recalculateAccountBalance`).  The balance write is a plain `updateDoc` of
the `balance` / `totalBalance` field (plus a timestamp, omitted here).
-/

/-- One step of the balance fold of `recalculateSubAccountBalance`: Income
adds, Expense subtracts, Transfer adds when `transferType == Incoming` and
otherwise (explicit Outgoing or unspecified) subtracts; any other
`transactionType` leaves the accumulator unchanged. -/
def balanceStep (balance : Rat) (t : TransactionDoc) : Rat :=
  if t.transactionType = "Income" then balance + t.amount
  else if t.transactionType = "Expense" then balance - t.amount
  else if t.transactionType = "Transfer" then
    if t.transferType = some "Incoming" then balance + t.amount
    else balance - t.amount
  else balance

/-- The `let balance = 0.00; transactions.forEach(...)` fold of the source. -/
def codeBalance (txns : List (Nat × TransactionDoc)) : Rat :=
  txns.foldl (fun b p => balanceStep b p.2) 0

def SubAccountDoc.withBalance (d : SubAccountDoc) (b : Rat) : SubAccountDoc :=
  SubAccountDoc.mk d.userId d.accountId d.name b d.isFavorite d.color

def AccountDoc.withTotalBalance (d : AccountDoc) (b : Rat) : AccountDoc :=
  AccountDoc.mk d.userId d.accountType d.name b d.isFavorite d.color

/-- `updateDoc(subAccountRef, { balance, updatedAt })`. -/
def Store.setSubAccountBalance (st : Store) (subAccountId : Nat) (b : Rat) : Store :=
  st.withSubAccounts
    (st.subAccounts.map (fun p => if p.1 = subAccountId then (p.1, p.2.withBalance b) else p))

/-- `updateDoc(accountRef, { totalBalance, updatedAt })`. -/
def Store.setAccountTotalBalance (st : Store) (accountId : Nat) (b : Rat) : Store :=
  st.withAccounts
    (st.accounts.map (fun p => if p.1 = accountId then (p.1, p.2.withTotalBalance b) else p))

def recalculateSubAccountBalance (userId : String) (subAccountId : Nat) (st : Store) :
    Except DbErr Rat × Store :=
  match requireUserId userId with
  | Except.error e => (Except.error e, st)
  | Except.ok v =>
    match getSubAccount v subAccountId st with
    | Except.error e => (Except.error e, st)
    | Except.ok _ =>
      let balance := codeBalance (transactionsBySubAccountQ st v subAccountId)
      (Except.ok balance, st.setSubAccountBalance subAccountId balance)

/-- The `let totalBalance = 0.00; subAccounts.forEach(...)` sum of the source
(`parseFloat(subAccount.balance || 0)` is the stored balance). -/
def codeTotalBalance (subs : List (Nat × SubAccountDoc)) : Rat :=
  subs.foldl (fun b p => b + p.2.balance) 0

def recalculateAccountBalance (userId : String) (accountId : Nat) (st : Store) :
    Except DbErr Rat × Store :=
  match requireUserId userId with
  | Except.error e => (Except.error e, st)
  | Except.ok v =>
    match getAccount v accountId st with
    | Except.error e => (Except.error e, st)
    | Except.ok _ =>
      let totalBalance := codeTotalBalance (subAccountsByAccountQ st v accountId)
      (Except.ok totalBalance, st.setAccountTotalBalance accountId totalBalance)

/-!
Transaction creation (`createTransaction`).  For a Transfer, two document
references are pre-allocated (`doc(collection(db, transactions))`), the two
halves are written in one batch, and then the affected balances are
recomputed; for Income/Expense a single document is written.
-/

/-- Input payload of `createTransaction` (`transactionData`); the
`transactionDate` is omitted with the other timestamps. -/
structure TxnInput where
  accountId : Nat
  subAccountId : Nat
  transactionType : String
  amount : Rat
  description : String
  category : String
  tags : List String
  toAccountId : Option Nat
  toSubAccountId : Option Nat
deriving DecidableEq, Repr

/-- The source (Outgoing) half written by the Transfer branch. -/
def transferSourceDoc (v : String) (tin : TxnInput) (toAcc toSub destId : Nat) :
    TransactionDoc :=
  TransactionDoc.mk v tin.accountId tin.subAccountId "Transfer" tin.amount
    tin.description tin.category tin.tags (some "Outgoing") (some destId)
    (some toAcc) (some toSub) none none

/-- The destination (Incoming) half written by the Transfer branch. -/
def transferDestDoc (v : String) (tin : TxnInput) (toAcc toSub sourceId : Nat) :
    TransactionDoc :=
  TransactionDoc.mk v toAcc toSub "Transfer" tin.amount
    tin.description tin.category tin.tags (some "Incoming") (some sourceId)
    none none (some tin.accountId) (some tin.subAccountId)

/-- The Income/Expense document written by the non-Transfer branch. -/
def simpleTxnDoc (v : String) (tin : TxnInput) : TransactionDoc :=
  TransactionDoc.mk v tin.accountId tin.subAccountId tin.transactionType tin.amount
    tin.description tin.category tin.tags none none none none none none

/-- Post-commit balance recomputations of the Transfer branch of
`createTransaction`: both source sides, then the destination sides unless
they coincide with the source (`if subAccountId !== toSubAccountId`, and
nested `if accountId !== toAccountId`). -/
def createTransferRecalcs (v : String) (tin : TxnInput) (toAcc toSub sourceId : Nat)
    (st : Store) : Except DbErr Nat × Store :=
  match recalculateSubAccountBalance v tin.subAccountId st with
  | (Except.error e, s) => (Except.error e, s)
  | (Except.ok _, s) =>
  match recalculateAccountBalance v tin.accountId s with
  | (Except.error e, s2) => (Except.error e, s2)
  | (Except.ok _, s2) =>
    if tin.subAccountId ≠ toSub then
      match recalculateSubAccountBalance v toSub s2 with
      | (Except.error e, s3) => (Except.error e, s3)
      | (Except.ok _, s3) =>
        if tin.accountId ≠ toAcc then
          match recalculateAccountBalance v toAcc s3 with
          | (Except.error e, s4) => (Except.error e, s4)
          | (Except.ok _, s4) => (Except.ok sourceId, s4)
        else
          (Except.ok sourceId, s3)
    else
      (Except.ok sourceId, s2)

def createTransaction (userId : String) (tin : TxnInput) (st : Store) :
    Except DbErr Nat × Store :=
  match requireUserId userId with
  | Except.error e => (Except.error e, st)
  | Except.ok v =>
  match validateTransactionType tin.transactionType with
  | Except.error e => (Except.error e, st)
  | Except.ok _ =>
  match validateAmount tin.amount with
  | Except.error e => (Except.error e, st)
  | Except.ok _ =>
  match getAccount v tin.accountId st with
  | Except.error e => (Except.error e, st)
  | Except.ok _ =>
  match getSubAccount v tin.subAccountId st with
  | Except.error e => (Except.error e, st)
  | Except.ok _ =>
  if tin.transactionType = "Transfer" then
    match tin.toAccountId, tin.toSubAccountId with
    | some toAcc, some toSub =>
      (match getAccount v toAcc st with
       | Except.error e => (Except.error e, st)
       | Except.ok _ =>
       match getSubAccount v toSub st with
       | Except.error e => (Except.error e, st)
       | Except.ok _ =>
         let sourceId := st.nextId
         let destId := st.nextId + 1
         let st1 := st.withNextId (st.nextId + 2)
         let st2 := applyBatch st1
           [BatchOp.setTransaction sourceId (transferSourceDoc v tin toAcc toSub destId),
            BatchOp.setTransaction destId (transferDestDoc v tin toAcc toSub sourceId)]
         createTransferRecalcs v tin toAcc toSub sourceId st2)
    | _, _ =>
      (Except.error (DbErr.validationError "toAccountId and toSubAccountId are required for Transfer transactions"), st)
  else
    let transactionId := st.nextId
    let st1 := st.withNextId (st.nextId + 1)
    let st2 := applyBatch st1 [BatchOp.setTransaction transactionId (simpleTxnDoc v tin)]
    match recalculateSubAccountBalance v tin.subAccountId st2 with
    | (Except.error e, s) => (Except.error e, s)
    | (Except.ok _, s) =>
    match recalculateAccountBalance v tin.accountId s with
    | (Except.error e, s2) => (Except.error e, s2)
    | (Except.ok _, s2) => (Except.ok transactionId, s2)

/-!
Update operations.  Each loads and ownership-checks the target first, strips
the protected fields from the payload, and then writes.  For
`updateTransaction` the source checks `if (updateData.amount)` /
`if (updateData.transactionType)` — JS truthiness, i.e. present AND non-zero
(resp. non-empty) — before validating, and deletes `accountId` /
`subAccountId` from the payload when they EQUAL the stored values (the
`=== ... // Allow if unchanged` comparison of the source), keeping them —
and therefore writing them — when they differ.
-/

def updateAccount (userId : String) (accountId : Nat) (p : AccountPatch) (st : Store) :
    Except DbErr Unit × Store :=
  match requireUserId userId with
  | Except.error e => (Except.error e, st)
  | Except.ok v =>
  match getAccount v accountId st with
  | Except.error e => (Except.error e, st)
  | Except.ok _ =>
    let updateFields := p.withUserId none
    match (match updateFields.accountType with
           | some t => if t ≠ "" then validateAccountType t else Except.ok t
           | none => Except.ok "") with
    | Except.error e => (Except.error e, st)
    | Except.ok _ =>
      (Except.ok (),
       st.withAccounts
         (st.accounts.map (fun q =>
           if q.1 = accountId then (q.1, applyAccountPatch q.2 updateFields) else q)))

def updateSubAccount (userId : String) (subAccountId : Nat) (p : SubAccountPatch) (st : Store) :
    Except DbErr Unit × Store :=
  match requireUserId userId with
  | Except.error e => (Except.error e, st)
  | Except.ok v =>
  match getSubAccount v subAccountId st with
  | Except.error e => (Except.error e, st)
  | Except.ok _ =>
    let updateFields := (p.withUserId none).withAccountId none
    (Except.ok (),
     st.withSubAccounts
       (st.subAccounts.map (fun q =>
         if q.1 = subAccountId then (q.1, applySubAccountPatch q.2 updateFields) else q)))

/-- Shared tail of `updateTransaction` after the batch is committed: the
balance recomputations for the target side, then — when a linked half was
updated — for the linked side. -/
def updateTransactionRecalcs (v : String) (transaction : TransactionDoc)
    (linked : Option TransactionDoc) (st : Store) : Except DbErr Unit × Store :=
  match recalculateSubAccountBalance v transaction.subAccountId st with
  | (Except.error e, s) => (Except.error e, s)
  | (Except.ok _, s) =>
  match recalculateAccountBalance v transaction.accountId s with
  | (Except.error e, s2) => (Except.error e, s2)
  | (Except.ok _, s2) =>
    match linked with
    | none => (Except.ok (), s2)
    | some l =>
      match recalculateSubAccountBalance v l.subAccountId s2 with
      | (Except.error e, s3) => (Except.error e, s3)
      | (Except.ok _, s3) =>
      match recalculateAccountBalance v l.accountId s3 with
      | (Except.error e, s4) => (Except.error e, s4)
      | (Except.ok _, s4) => (Except.ok (), s4)

/-- The `linkedUpdates` payload propagated to the linked transfer half:
`amount`, `description`, `category`, `tags` when present in the (stripped)
payload (`transactionDate` is a timestamp, omitted). -/
def linkedUpdatesOf (fields : TxnPatch) : TxnPatch :=
  TxnPatch.mk none none none none fields.amount fields.description fields.category fields.tags none

def updateTransaction (userId : String) (transactionId : Nat) (p : TxnPatch) (st : Store) :
    Except DbErr Unit × Store :=
  match requireUserId userId with
  | Except.error e => (Except.error e, st)
  | Except.ok v =>
  match getTransaction v transactionId st with
  | Except.error e => (Except.error e, st)
  | Except.ok transaction =>
  match (match p.amount with
         | some a => if a ≠ 0 then validateAmount a else Except.ok a
         | none => Except.ok 0) with
  | Except.error e => (Except.error e, st)
  | Except.ok _ =>
  match (match p.transactionType with
         | some t => if t ≠ "" then validateTransactionType t else Except.ok t
         | none => Except.ok "") with
  | Except.error e => (Except.error e, st)
  | Except.ok _ =>
    let f1 := p.withUserId none
    let f2 := if f1.accountId = some transaction.accountId then f1.withAccountId none else f1
    let f3 := if f2.subAccountId = some transaction.subAccountId then f2.withSubAccountId none else f2
    match transaction.linkedTransactionId with
    | some lid =>
      if transaction.transactionType = "Transfer" then
        match getTransaction v lid st with
        | Except.error e => (Except.error e, st)
        | Except.ok linked =>
          let st2 := applyBatch st
            [BatchOp.updTransaction transactionId f3,
             BatchOp.updTransaction lid (linkedUpdatesOf f3)]
          updateTransactionRecalcs v transaction (some linked) st2
      else
        let st2 := applyBatch st [BatchOp.updTransaction transactionId f3]
        updateTransactionRecalcs v transaction none st2
    | none =>
      let st2 := applyBatch st [BatchOp.updTransaction transactionId f3]
      updateTransactionRecalcs v transaction none st2

/-!
Delete operations.  `deleteTransaction` tolerates a missing linked half (the
`try/catch`); `deleteSubAccount` commits its cascade and then — a slip kept
faithfully — re-reads the just-deleted sub-account to find the parent id;
`deleteAccount` enumerates children and commits one cascade batch.
-/

def deleteTransaction (userId : String) (transactionId : Nat) (st : Store) :
    Except DbErr Unit × Store :=
  match requireUserId userId with
  | Except.error e => (Except.error e, st)
  | Except.ok v =>
  match getTransaction v transactionId st with
  | Except.error e => (Except.error e, st)
  | Except.ok transaction =>
    let linkedOpt :=
      match transaction.linkedTransactionId with
      | some lid =>
        if transaction.transactionType = "Transfer" then
          match getTransaction v lid st with
          | Except.ok linked => some (lid, linked)
          | Except.error _ => none
        else none
      | none => none
    let batch :=
      [BatchOp.delTransaction transactionId] ++
      (match linkedOpt with
       | some (lid, _) => [BatchOp.delTransaction lid]
       | none => [])
    let st2 := applyBatch st batch
    match recalculateSubAccountBalance v transaction.subAccountId st2 with
    | (Except.error e, s) => (Except.error e, s)
    | (Except.ok _, s) =>
    match recalculateAccountBalance v transaction.accountId s with
    | (Except.error e, s2) => (Except.error e, s2)
    | (Except.ok _, s2) =>
      match linkedOpt with
      | none => (Except.ok (), s2)
      | some (_, l) =>
        match recalculateSubAccountBalance v l.subAccountId s2 with
        | (Except.error e, s3) => (Except.error e, s3)
        | (Except.ok _, s3) =>
        match recalculateAccountBalance v l.accountId s3 with
        | (Except.error e, s4) => (Except.error e, s4)
        | (Except.ok _, s4) => (Except.ok (), s4)

/-- The cascade batch of `deleteSubAccount`: the sub-account's Transactions,
then the SubAccount itself, then the Favorites referencing it. -/
def deleteSubAccountBatch (st : Store) (v : String) (subAccountId : Nat) : List BatchOp :=
  (transactionsBySubAccountQ st v subAccountId).map (fun q => BatchOp.delTransaction q.1) ++
  [BatchOp.delSubAccount subAccountId] ++
  (favoritesBySubAccountQ st v subAccountId).map (fun q => BatchOp.delFavorite q.1)

def deleteSubAccount (userId : String) (subAccountId : Nat) (st : Store) :
    Except DbErr Unit × Store :=
  match requireUserId userId with
  | Except.error e => (Except.error e, st)
  | Except.ok v =>
  match getSubAccount v subAccountId st with
  | Except.error e => (Except.error e, st)
  | Except.ok _ =>
    let st2 := applyBatch st (deleteSubAccountBatch st v subAccountId)
    -- the source re-reads the sub-account AFTER the commit that deleted it
    match getSubAccount v subAccountId st2 with
    | Except.error e => (Except.error e, st2)
    | Except.ok subAccount =>
      match recalculateAccountBalance v subAccount.accountId st2 with
      | (Except.error e, s) => (Except.error e, s)
      | (Except.ok _, s) => (Except.ok (), s)

/-- The cascade batch of `deleteAccount`: per child SubAccount its
Transactions then the SubAccount, then the Account itself, then the
Account's Favorites. -/
def deleteAccountBatch (st : Store) (v : String) (accountId : Nat) : List BatchOp :=
  ((subAccountsByAccountQ st v accountId).map (fun p =>
      (transactionsBySubAccountQ st v p.1).map (fun q => BatchOp.delTransaction q.1) ++
      [BatchOp.delSubAccount p.1])).flatten ++
  [BatchOp.delAccount accountId] ++
  (favoritesByAccountQ st v accountId).map (fun q => BatchOp.delFavorite q.1)

def deleteAccount (userId : String) (accountId : Nat) (st : Store) :
    Except DbErr Unit × Store :=
  match requireUserId userId with
  | Except.error e => (Except.error e, st)
  | Except.ok v =>
  match getAccount v accountId st with
  | Except.error e => (Except.error e, st)
  | Except.ok _ =>
    (Except.ok (), applyBatch st (deleteAccountBatch st v accountId))

/-!
Favorites (`addFavorite`, `removeFavorite`).  `addFavorite` only rejects the
call when BOTH ids are absent, and sets `favoriteType` from the truthiness
of `accountId` alone.
-/

def addFavorite (userId : String) (accountId : Option Nat) (subAccountId : Option Nat)
    (st : Store) : Except DbErr Nat × Store :=
  match requireUserId userId with
  | Except.error e => (Except.error e, st)
  | Except.ok v =>
    if accountId = none ∧ subAccountId = none then
      (Except.error (DbErr.validationError "Either accountId or subAccountId must be provided"), st)
    else
      let favoriteData :=
        FavoriteDoc.mk v accountId subAccountId
          (if accountId.isSome then "account" else "subAccount")
      (Except.ok st.nextId,
       (st.withFavorites (setDoc st.favorites st.nextId favoriteData)).withNextId (st.nextId + 1))

def removeFavorite (userId : String) (favoriteId : Nat) (st : Store) :
    Except DbErr Unit × Store :=
  match requireUserId userId with
  | Except.error e => (Except.error e, st)
  | Except.ok v =>
    match lookupDoc st.favorites favoriteId with
    | none => (Except.error (DbErr.notFoundError "Favorite not found"), st)
    | some d =>
      if d.userId = "" then
        (Except.error (DbErr.securityError "Security error: Favorite missing userId field"), st)
      else if d.userId ≠ v then
        (Except.error (DbErr.authorizationError "Unauthorized: Favorite does not belong to authenticated user"), st)
      else
        (Except.ok (), st.withFavorites (delDoc st.favorites favoriteId))

/-!
Spec-side definitions and general-purpose lemmas used by the claim theorems.
-/

/-- Modelled from the spec (§4.4 sign rule), for comparison with the balance
fold of the source: Income adds the amount, Expense subtracts it, a Transfer
adds it when `transferType` is Incoming and subtracts it when `transferType`
is Outgoing or unspecified.  Types outside the data model contribute 0. -/
def specSignedAmount (t : TransactionDoc) : Rat :=
  if t.transactionType = "Income" then t.amount
  else if t.transactionType = "Expense" then -t.amount
  else if t.transactionType = "Transfer" then
    (if t.transferType = some "Incoming" then t.amount
     else if t.transferType = some "Outgoing" then -t.amount
     else if t.transferType = none then -t.amount
     else 0)
  else 0

/-- Modelled from the spec: the sign-adjusted sum over a transaction history. -/
def specSignedSum (txns : List (Nat × TransactionDoc)) : Rat :=
  (txns.map (fun p => specSignedAmount p.2)).sum

/-- A Transfer record carries an Incoming or Outgoing `transferType`, or none
at all (legacy records) — the shapes the data model of the spec admits. -/
def wellFormedTransferType (t : TransactionDoc) : Prop :=
  t.transactionType = "Transfer" →
    t.transferType = none ∨ t.transferType = some "Outgoing" ∨ t.transferType = some "Incoming"

instance (t : TransactionDoc) : Decidable (wellFormedTransferType t) := by
  unfold wellFormedTransferType
  infer_instance

theorem balanceStep_eq_spec (b : Rat) (t : TransactionDoc)
    (h : wellFormedTransferType t) : balanceStep b t = b + specSignedAmount t := by
  unfold balanceStep specSignedAmount
  by_cases h1 : t.transactionType = "Income"
  · simp [h1]
  · by_cases h2 : t.transactionType = "Expense"
    · simp [h1, h2]
      ring
    · by_cases h3 : t.transactionType = "Transfer"
      · rcases h h3 with h4 | h4 | h4 <;>
          simp [h1, h2, h3, h4] <;> ring
      · simp [h1, h2, h3]

theorem codeBalance_eq_specSignedSum (txns : List (Nat × TransactionDoc))
    (h : ∀ p ∈ txns, wellFormedTransferType p.2) :
    codeBalance txns = specSignedSum txns := by
  have key : ∀ (l : List (Nat × TransactionDoc)) (b : Rat),
      (∀ p ∈ l, wellFormedTransferType p.2) →
      l.foldl (fun acc p => balanceStep acc p.2) b = b + specSignedSum l := by
    intro l
    induction l with
    | nil => intro b _; simp [specSignedSum]
    | cons q l ih =>
      intro b hl
      have hq := hl q (List.mem_cons_self q l)
      have hrest : ∀ p ∈ l, wellFormedTransferType p.2 :=
        fun p hp => hl p (List.mem_cons_of_mem q hp)
      simp only [List.foldl_cons, ih _ hrest, balanceStep_eq_spec b q.2 hq,
        specSignedSum, List.map_cons, List.sum_cons]
      ring
  have := key txns 0 h
  simpa [codeBalance] using this

/-- Congruence for `List.map` under a pointwise equality on members. -/
theorem listMapCongr {α β : Type} (l : List α) (f g : α → β)
    (h : ∀ a ∈ l, f a = g a) : l.map f = l.map g := by
  induction l with
  | nil => rfl
  | cons a l ih =>
    simp only [List.map_cons, h a (List.mem_cons_self a l)]
    rw [ih (fun b hb => h b (List.mem_cons_of_mem a hb))]

/-- Looking up in a list updated at one key (`updateDoc` semantics). -/
theorem lookupDoc_map_upd {α : Type} (l : List (Nat × α)) (i : Nat) (f : α → α) (j : Nat) :
    lookupDoc (l.map (fun p => if p.1 = i then (p.1, f p.2) else p)) j =
      if j = i then (lookupDoc l j).map f else lookupDoc l j := by
  induction l with
  | nil => simp [lookupDoc]
  | cons p l ih =>
    by_cases hp : p.1 = i
    · by_cases hj : j = i
      · have hpj : p.1 = j := by rw [hp, hj]
        simp [lookupDoc, hp, hj, hpj]
      · have hpj : p.1 ≠ j := by rw [hp]; exact fun hh => hj hh.symm
        simp [lookupDoc, hp, hj, hpj, Ne.symm hj, ih]
    · by_cases hpj : p.1 = j
      · have hj : j ≠ i := by rw [← hpj]; exact hp
        simp [lookupDoc, hp, hpj, hj]
      · simp [lookupDoc, hp, hpj, ih]

/-!
Ownership predicates and run lemmas for the single-document reads and the
balance recomputations.
-/

def ownedSub (st : Store) (T : String) (S : Nat) : Prop :=
  ∃ d, lookupDoc st.subAccounts S = some d ∧ d.userId = T

def ownedAcc (st : Store) (T : String) (A : Nat) : Prop :=
  ∃ d, lookupDoc st.accounts A = some d ∧ d.userId = T

theorem getAccount_ok (st : Store) (T : String) (A : Nat) (d : AccountDoc)
    (hT : requireUserId T = Except.ok T)
    (hA : lookupDoc st.accounts A = some d) (hOwn : d.userId = T) :
    getAccount T A st = Except.ok d := by
  have hne : d.userId ≠ "" := by
    rw [hOwn]; exact requireUserId_ok_ne T hT
  simp [getAccount, hT, hA, hne, hOwn, requireUserId_ok_ne T hT]

theorem getSubAccount_ok (st : Store) (T : String) (S : Nat) (d : SubAccountDoc)
    (hT : requireUserId T = Except.ok T)
    (hS : lookupDoc st.subAccounts S = some d) (hOwn : d.userId = T) :
    getSubAccount T S st = Except.ok d := by
  have hne : d.userId ≠ "" := by
    rw [hOwn]; exact requireUserId_ok_ne T hT
  simp [getSubAccount, hT, hS, hne, hOwn, requireUserId_ok_ne T hT]

theorem getTransaction_ok (st : Store) (T : String) (X : Nat) (d : TransactionDoc)
    (hT : requireUserId T = Except.ok T)
    (hX : lookupDoc st.transactions X = some d) (hOwn : d.userId = T) :
    getTransaction T X st = Except.ok d := by
  have hne : d.userId ≠ "" := by
    rw [hOwn]; exact requireUserId_ok_ne T hT
  simp [getTransaction, hT, hX, hne, hOwn, requireUserId_ok_ne T hT]

theorem recalcSub_run (st : Store) (T : String) (S : Nat)
    (hT : requireUserId T = Except.ok T) (h : ownedSub st T S) :
    recalculateSubAccountBalance T S st =
      (Except.ok (codeBalance (transactionsBySubAccountQ st T S)),
       st.setSubAccountBalance S (codeBalance (transactionsBySubAccountQ st T S))) := by
  obtain ⟨d, hS, hOwn⟩ := h
  simp [recalculateSubAccountBalance, hT, getSubAccount_ok st T S d hT hS hOwn]

theorem recalcAcc_run (st : Store) (T : String) (A : Nat)
    (hT : requireUserId T = Except.ok T) (h : ownedAcc st T A) :
    recalculateAccountBalance T A st =
      (Except.ok (codeTotalBalance (subAccountsByAccountQ st T A)),
       st.setAccountTotalBalance A (codeTotalBalance (subAccountsByAccountQ st T A))) := by
  obtain ⟨d, hA, hOwn⟩ := h
  simp [recalculateAccountBalance, hT, getAccount_ok st T A d hT hA hOwn]

theorem ownedSub_setSubBal (st : Store) (T : String) (S' S : Nat) (b : Rat)
    (h : ownedSub st T S') : ownedSub (st.setSubAccountBalance S b) T S' := by
  obtain ⟨d, hS, hOwn⟩ := h
  have hl : lookupDoc (st.setSubAccountBalance S b).subAccounts S' =
      if S' = S then (lookupDoc st.subAccounts S').map (fun x => x.withBalance b)
      else lookupDoc st.subAccounts S' :=
    lookupDoc_map_upd st.subAccounts S (fun x => x.withBalance b) S'
  by_cases hc : S' = S
  · exact ⟨d.withBalance b, by rw [hl, if_pos hc, hS]; rfl, hOwn⟩
  · exact ⟨d, by rw [hl, if_neg hc, hS], hOwn⟩

theorem ownedSub_setAccBal (st : Store) (T : String) (S A : Nat) (b : Rat)
    (h : ownedSub st T S) : ownedSub (st.setAccountTotalBalance A b) T S := h

theorem ownedAcc_setSubBal (st : Store) (T : String) (A S : Nat) (b : Rat)
    (h : ownedAcc st T A) : ownedAcc (st.setSubAccountBalance S b) T A := h

theorem ownedAcc_setAccBal (st : Store) (T : String) (A' A : Nat) (b : Rat)
    (h : ownedAcc st T A') : ownedAcc (st.setAccountTotalBalance A b) T A' := by
  obtain ⟨d, hA, hOwn⟩ := h
  have hl : lookupDoc (st.setAccountTotalBalance A b).accounts A' =
      if A' = A then (lookupDoc st.accounts A').map (fun x => x.withTotalBalance b)
      else lookupDoc st.accounts A' :=
    lookupDoc_map_upd st.accounts A (fun x => x.withTotalBalance b) A'
  by_cases hc : A' = A
  · exact ⟨d.withTotalBalance b, by rw [hl, if_pos hc, hA]; rfl, hOwn⟩
  · exact ⟨d, by rw [hl, if_neg hc, hA], hOwn⟩

theorem getAccount_auth (st : Store) (T : String) (A : Nat) (d : AccountDoc)
    (hT : requireUserId T = Except.ok T)
    (hA : lookupDoc st.accounts A = some d)
    (hne : d.userId ≠ "") (hneT : d.userId ≠ T) :
    getAccount T A st =
      Except.error (DbErr.authorizationError "Unauthorized: Account does not belong to authenticated user") := by
  simp [getAccount, hT, hA, hne, hneT]

theorem getSubAccount_auth (st : Store) (T : String) (S : Nat) (d : SubAccountDoc)
    (hT : requireUserId T = Except.ok T)
    (hS : lookupDoc st.subAccounts S = some d)
    (hne : d.userId ≠ "") (hneT : d.userId ≠ T) :
    getSubAccount T S st =
      Except.error (DbErr.authorizationError "Unauthorized: Sub-account does not belong to authenticated user") := by
  simp [getSubAccount, hT, hS, hne, hneT]

theorem getTransaction_auth (st : Store) (T : String) (X : Nat) (d : TransactionDoc)
    (hT : requireUserId T = Except.ok T)
    (hX : lookupDoc st.transactions X = some d)
    (hne : d.userId ≠ "") (hneT : d.userId ≠ T) :
    getTransaction T X st =
      Except.error (DbErr.authorizationError "Unauthorized: Transaction does not belong to authenticated user") := by
  simp [getTransaction, hT, hX, hne, hneT]

/-- Updating the balance of the same sub-account twice with the same value is
the same as doing it once. -/
theorem mapBalTwice (l : List (Nat × SubAccountDoc)) (S : Nat) (b : Rat) :
    (l.map (fun p => if p.1 = S then (p.1, p.2.withBalance b) else p)).map
        (fun p => if p.1 = S then (p.1, p.2.withBalance b) else p) =
      l.map (fun p => if p.1 = S then (p.1, p.2.withBalance b) else p) := by
  rw [List.map_map]
  apply listMapCongr
  intro p _
  by_cases hc : p.1 = S
  · simp [Function.comp, hc, SubAccountDoc.withBalance]
  · simp [Function.comp, hc]

theorem setSubAccountBalance_idem (st : Store) (S : Nat) (b : Rat) :
    (st.setSubAccountBalance S b).setSubAccountBalance S b = st.setSubAccountBalance S b :=
  congrArg (fun l => Store.mk st.accounts l st.transactions st.favorites st.nextId)
    (mapBalTwice st.subAccounts S b)

/-!
Concrete demonstration stores used by witnesses and counterexamples.
-/

def demoAccount : AccountDoc := AccountDoc.mk "u1" "Asset" "Bank" 999 false "#2196f3"

def demoSub : SubAccountDoc := SubAccountDoc.mk "u1" 1 "Cash" 999 false "#2196f3"

def demoTxnIncome : TransactionDoc :=
  TransactionDoc.mk "u1" 1 10 "Income" 5 "salary" "" [] none none none none none none

def demoTxnExpense : TransactionDoc :=
  TransactionDoc.mk "u1" 1 10 "Expense" 2 "food" "" [] none none none none none none

def demoTxnTransferOut : TransactionDoc :=
  TransactionDoc.mk "u1" 1 10 "Transfer" 1 "move" "" [] (some "Outgoing") (some 103)
    (some 2) (some 20) none none

def demoStore : Store :=
  Store.mk [(1, demoAccount)] [(10, demoSub)]
    [(100, demoTxnIncome), (101, demoTxnExpense), (102, demoTxnTransferOut)] [] 200

/-- C1: `recalculateSubAccountBalance(tenantId, subAccountId)` writes back and
returns a balance equal to the fold of the sub-account's transaction history
under the sign rule: Income adds the amount, Expense subtracts it, a Transfer
with `transferType` Incoming adds it, and a Transfer with `transferType`
Outgoing or unspecified subtracts it. -/
theorem recalculateSubAccountBalance_matches_spec_fold (st : Store) (T : String)
    (S : Nat) (d : SubAccountDoc)
    (hT : requireUserId T = Except.ok T)
    (hS : lookupDoc st.subAccounts S = some d)
    (hOwn : d.userId = T)
    (hWf : ∀ p ∈ transactionsBySubAccountQ st T S, wellFormedTransferType p.2) :
    recalculateSubAccountBalance T S st =
      (Except.ok (specSignedSum (transactionsBySubAccountQ st T S)),
       st.setSubAccountBalance S (specSignedSum (transactionsBySubAccountQ st T S))) := by
  rw [recalcSub_run st T S hT ⟨d, hS, hOwn⟩, codeBalance_eq_specSignedSum _ hWf]

/-- Witness for C1: on the demonstration store, with history Income 5,
Expense 2, Transfer Outgoing 1, the recomputation returns the sign-adjusted
sum and stores it on the sub-account. -/
theorem recalculateSubAccountBalance_matches_spec_fold_witness :
    recalculateSubAccountBalance "u1" 10 demoStore =
      (Except.ok (specSignedSum (transactionsBySubAccountQ demoStore "u1" 10)),
       demoStore.setSubAccountBalance 10 (specSignedSum (transactionsBySubAccountQ demoStore "u1" 10))) :=
  recalculateSubAccountBalance_matches_spec_fold demoStore "u1" 10 demoSub
    (by decide) (by decide) (by decide) (by decide)

/-- C8: `recalculateSubAccountBalance` is idempotent — with an unchanged
transaction set a second run returns the same balance and leaves the store
exactly as the first run left it — and its only write effect is the single
balance write on the targeted sub-account. -/
theorem recalculateSubAccountBalance_idempotent (st : Store) (T : String)
    (S : Nat) (d : SubAccountDoc)
    (hT : requireUserId T = Except.ok T)
    (hS : lookupDoc st.subAccounts S = some d)
    (hOwn : d.userId = T) :
    ∃ b st1,
      recalculateSubAccountBalance T S st = (Except.ok b, st1) ∧
      recalculateSubAccountBalance T S st1 = (Except.ok b, st1) ∧
      st1.accounts = st.accounts ∧
      st1.transactions = st.transactions ∧
      st1.favorites = st.favorites ∧
      st1.nextId = st.nextId ∧
      lookupDoc st1.subAccounts S = some (d.withBalance b) ∧
      (∀ S2, S2 ≠ S → lookupDoc st1.subAccounts S2 = lookupDoc st.subAccounts S2) := by
  refine ⟨codeBalance (transactionsBySubAccountQ st T S),
          st.setSubAccountBalance S (codeBalance (transactionsBySubAccountQ st T S)),
          recalcSub_run st T S hT ⟨d, hS, hOwn⟩, ?_, rfl, rfl, rfl, rfl, ?_, ?_⟩
  · have h2 := recalcSub_run
      (st.setSubAccountBalance S (codeBalance (transactionsBySubAccountQ st T S))) T S hT
      (ownedSub_setSubBal st T S S _ ⟨d, hS, hOwn⟩)
    have hQ : transactionsBySubAccountQ
        (st.setSubAccountBalance S (codeBalance (transactionsBySubAccountQ st T S))) T S =
        transactionsBySubAccountQ st T S := rfl
    rw [h2, hQ, setSubAccountBalance_idem]
  · have hl : lookupDoc
        (st.setSubAccountBalance S (codeBalance (transactionsBySubAccountQ st T S))).subAccounts S =
        if S = S then
          (lookupDoc st.subAccounts S).map
            (fun x => x.withBalance (codeBalance (transactionsBySubAccountQ st T S)))
        else lookupDoc st.subAccounts S :=
      lookupDoc_map_upd st.subAccounts S
        (fun x => x.withBalance (codeBalance (transactionsBySubAccountQ st T S))) S
    rw [hl, if_pos rfl, hS]
    rfl
  · intro S2 hne
    have hl : lookupDoc
        (st.setSubAccountBalance S (codeBalance (transactionsBySubAccountQ st T S))).subAccounts S2 =
        if S2 = S then
          (lookupDoc st.subAccounts S2).map
            (fun x => x.withBalance (codeBalance (transactionsBySubAccountQ st T S)))
        else lookupDoc st.subAccounts S2 :=
      lookupDoc_map_upd st.subAccounts S
        (fun x => x.withBalance (codeBalance (transactionsBySubAccountQ st T S))) S2
    rw [hl, if_neg hne]

/-- Witness for C8: the idempotence theorem applied to the demonstration
store. -/
theorem recalculateSubAccountBalance_idempotent_witness :
    ∃ b st1,
      recalculateSubAccountBalance "u1" 10 demoStore = (Except.ok b, st1) ∧
      recalculateSubAccountBalance "u1" 10 st1 = (Except.ok b, st1) ∧
      st1.accounts = demoStore.accounts ∧
      st1.transactions = demoStore.transactions ∧
      st1.favorites = demoStore.favorites ∧
      st1.nextId = demoStore.nextId ∧
      lookupDoc st1.subAccounts 10 = some (demoSub.withBalance b) ∧
      (∀ S2, S2 ≠ 10 → lookupDoc st1.subAccounts S2 = lookupDoc demoStore.subAccounts S2) :=
  recalculateSubAccountBalance_idempotent demoStore "u1" 10 demoSub
    (by decide) (by decide) (by decide)

/-- C3: every single-document get, update or delete of an Account,
SubAccount, Transaction or Favorite, invoked with a validated tenant id that
differs from the target document's stored (non-empty) tenant id, fails with
an AuthorizationError and leaves the store unchanged. -/
theorem crossTenant_singleDoc_ops_fail (st : Store) (T : String)
    (hT : requireUserId T = Except.ok T) :
    (∀ A d, lookupDoc st.accounts A = some d → d.userId ≠ "" → d.userId ≠ T →
      getAccount T A st =
        Except.error (DbErr.authorizationError "Unauthorized: Account does not belong to authenticated user") ∧
      (∀ p, updateAccount T A p st =
        (Except.error (DbErr.authorizationError "Unauthorized: Account does not belong to authenticated user"), st)) ∧
      deleteAccount T A st =
        (Except.error (DbErr.authorizationError "Unauthorized: Account does not belong to authenticated user"), st)) ∧
    (∀ S d, lookupDoc st.subAccounts S = some d → d.userId ≠ "" → d.userId ≠ T →
      getSubAccount T S st =
        Except.error (DbErr.authorizationError "Unauthorized: Sub-account does not belong to authenticated user") ∧
      (∀ p, updateSubAccount T S p st =
        (Except.error (DbErr.authorizationError "Unauthorized: Sub-account does not belong to authenticated user"), st)) ∧
      deleteSubAccount T S st =
        (Except.error (DbErr.authorizationError "Unauthorized: Sub-account does not belong to authenticated user"), st)) ∧
    (∀ X d, lookupDoc st.transactions X = some d → d.userId ≠ "" → d.userId ≠ T →
      getTransaction T X st =
        Except.error (DbErr.authorizationError "Unauthorized: Transaction does not belong to authenticated user") ∧
      (∀ p, updateTransaction T X p st =
        (Except.error (DbErr.authorizationError "Unauthorized: Transaction does not belong to authenticated user"), st)) ∧
      deleteTransaction T X st =
        (Except.error (DbErr.authorizationError "Unauthorized: Transaction does not belong to authenticated user"), st)) ∧
    (∀ F d, lookupDoc st.favorites F = some d → d.userId ≠ "" → d.userId ≠ T →
      removeFavorite T F st =
        (Except.error (DbErr.authorizationError "Unauthorized: Favorite does not belong to authenticated user"), st)) := by
  refine ⟨?_, ?_, ?_, ?_⟩
  · intro A d hA hne hneT
    have hga := getAccount_auth st T A d hT hA hne hneT
    exact ⟨hga, fun p => by simp [updateAccount, hT, hga], by simp [deleteAccount, hT, hga]⟩
  · intro S d hS hne hneT
    have hgs := getSubAccount_auth st T S d hT hS hne hneT
    exact ⟨hgs, fun p => by simp [updateSubAccount, hT, hgs], by simp [deleteSubAccount, hT, hgs]⟩
  · intro X d hX hne hneT
    have hgt := getTransaction_auth st T X d hT hX hne hneT
    exact ⟨hgt, fun p => by simp [updateTransaction, hT, hgt], by simp [deleteTransaction, hT, hgt]⟩
  · intro F d hF hne hneT
    simp [removeFavorite, hT, hF, hne, hneT]

def crossAccount : AccountDoc := AccountDoc.mk "u2" "Asset" "Bank" 0 false "#2196f3"

def crossSub : SubAccountDoc := SubAccountDoc.mk "u2" 1 "Cash" 0 false "#2196f3"

def crossTxn : TransactionDoc :=
  TransactionDoc.mk "u2" 1 10 "Income" 5 "" "" [] none none none none none none

def crossFav : FavoriteDoc := FavoriteDoc.mk "u2" (some 1) none "account"

def crossStore : Store :=
  Store.mk [(1, crossAccount)] [(10, crossSub)] [(100, crossTxn)] [(500, crossFav)] 1000

def emptyAccountPatch : AccountPatch := AccountPatch.mk none none none none none none

def emptySubAccountPatch : SubAccountPatch := SubAccountPatch.mk none none none none none none

def emptyTxnPatch : TxnPatch := TxnPatch.mk none none none none none none none none none

/-- Witness for C3: tenant u1 is denied on every single-document operation
against tenant u2's documents, with the store unchanged. -/
theorem crossTenant_singleDoc_ops_fail_witness :
    getAccount "u1" 1 crossStore =
      Except.error (DbErr.authorizationError "Unauthorized: Account does not belong to authenticated user") ∧
    updateAccount "u1" 1 emptyAccountPatch crossStore =
      (Except.error (DbErr.authorizationError "Unauthorized: Account does not belong to authenticated user"), crossStore) ∧
    deleteAccount "u1" 1 crossStore =
      (Except.error (DbErr.authorizationError "Unauthorized: Account does not belong to authenticated user"), crossStore) ∧
    getSubAccount "u1" 10 crossStore =
      Except.error (DbErr.authorizationError "Unauthorized: Sub-account does not belong to authenticated user") ∧
    updateSubAccount "u1" 10 emptySubAccountPatch crossStore =
      (Except.error (DbErr.authorizationError "Unauthorized: Sub-account does not belong to authenticated user"), crossStore) ∧
    deleteSubAccount "u1" 10 crossStore =
      (Except.error (DbErr.authorizationError "Unauthorized: Sub-account does not belong to authenticated user"), crossStore) ∧
    getTransaction "u1" 100 crossStore =
      Except.error (DbErr.authorizationError "Unauthorized: Transaction does not belong to authenticated user") ∧
    updateTransaction "u1" 100 emptyTxnPatch crossStore =
      (Except.error (DbErr.authorizationError "Unauthorized: Transaction does not belong to authenticated user"), crossStore) ∧
    deleteTransaction "u1" 100 crossStore =
      (Except.error (DbErr.authorizationError "Unauthorized: Transaction does not belong to authenticated user"), crossStore) ∧
    removeFavorite "u1" 500 crossStore =
      (Except.error (DbErr.authorizationError "Unauthorized: Favorite does not belong to authenticated user"), crossStore) := by
  obtain ⟨h1, h2, h3, h4⟩ := crossTenant_singleDoc_ops_fail crossStore "u1" (by decide)
  obtain ⟨ha1, ha2, ha3⟩ := h1 1 crossAccount (by decide) (by decide) (by decide)
  obtain ⟨hb1, hb2, hb3⟩ := h2 10 crossSub (by decide) (by decide) (by decide)
  obtain ⟨hc1, hc2, hc3⟩ := h3 100 crossTxn (by decide) (by decide) (by decide)
  have hd := h4 500 crossFav (by decide) (by decide) (by decide)
  exact ⟨ha1, ha2 emptyAccountPatch, ha3, hb1, hb2 emptySubAccountPatch, hb3,
         hc1, hc2 emptyTxnPatch, hc3, hd⟩

/-- One balance-recomputation step on a sub-account succeeds on any store
where the target is owned by the tenant, touches only the `subAccounts`
collection, and preserves ownership facts. -/
theorem recalcSub_step (s : Store) (T : String) (S : Nat)
    (hT : requireUserId T = Except.ok T) (h : ownedSub s T S) :
    ∃ b s2, recalculateSubAccountBalance T S s = (Except.ok b, s2) ∧
      s2.transactions = s.transactions ∧ s2.favorites = s.favorites ∧
      s2.nextId = s.nextId ∧ s2.accounts = s.accounts ∧
      (∀ S0, ownedSub s T S0 → ownedSub s2 T S0) ∧
      (∀ A0, ownedAcc s T A0 → ownedAcc s2 T A0) :=
  ⟨_, _, recalcSub_run s T S hT h, rfl, rfl, rfl, rfl,
   fun S0 hh => ownedSub_setSubBal s T S0 S _ hh,
   fun A0 hh => ownedAcc_setSubBal s T A0 S _ hh⟩

/-- One balance-recomputation step on an account succeeds on any store where
the target is owned by the tenant, touches only the `accounts` collection,
and preserves ownership facts. -/
theorem recalcAcc_step (s : Store) (T : String) (A : Nat)
    (hT : requireUserId T = Except.ok T) (h : ownedAcc s T A) :
    ∃ b s2, recalculateAccountBalance T A s = (Except.ok b, s2) ∧
      s2.transactions = s.transactions ∧ s2.favorites = s.favorites ∧
      s2.nextId = s.nextId ∧ s2.subAccounts = s.subAccounts ∧
      (∀ S0, ownedSub s T S0 → ownedSub s2 T S0) ∧
      (∀ A0, ownedAcc s T A0 → ownedAcc s2 T A0) :=
  ⟨_, _, recalcAcc_run s T A hT h, rfl, rfl, rfl, rfl,
   fun S0 hh => ownedSub_setAccBal s T S0 A _ hh,
   fun A0 hh => ownedAcc_setAccBal s T A0 A _ hh⟩

/-- The post-commit recomputation chain of a Transfer creation succeeds when
the four referenced entities are tenant-owned, returns the pre-allocated
source id, and never touches the `transactions` collection. -/
theorem createTransferRecalcs_run (st : Store) (T : String) (tin : TxnInput)
    (toAcc toSub sid : Nat)
    (hT : requireUserId T = Except.ok T)
    (h1 : ownedSub st T tin.subAccountId) (h2 : ownedAcc st T tin.accountId)
    (h3 : ownedSub st T toSub) (h4 : ownedAcc st T toAcc) :
    ∃ st', createTransferRecalcs T tin toAcc toSub sid st = (Except.ok sid, st') ∧
      st'.transactions = st.transactions ∧ st'.favorites = st.favorites ∧
      st'.nextId = st.nextId := by
  obtain ⟨b1, st1, e1, t1, f1, n1, a1, pS1, pA1⟩ := recalcSub_step st T tin.subAccountId hT h1
  obtain ⟨b2, st2, e2, t2, f2, n2, s2eq, pS2, pA2⟩ :=
    recalcAcc_step st1 T tin.accountId hT (pA1 _ h2)
  by_cases hss : tin.subAccountId = toSub
  · refine ⟨st2, ?_, by rw [t2, t1], by rw [f2, f1], by rw [n2, n1]⟩
    simp only [createTransferRecalcs, e1, e2]
    rw [if_neg (not_not_intro hss)]
  · obtain ⟨b3, st3, e3, t3, f3, n3, a3, pS3, pA3⟩ :=
      recalcSub_step st2 T toSub hT (pS2 _ (pS1 _ h3))
    by_cases haa : tin.accountId = toAcc
    · refine ⟨st3, ?_, by rw [t3, t2, t1], by rw [f3, f2, f1], by rw [n3, n2, n1]⟩
      simp only [createTransferRecalcs, e1, e2, e3]
      rw [if_pos hss, if_neg (not_not_intro haa)]
    · obtain ⟨b4, st4, e4, t4, f4, n4, s4eq, pS4, pA4⟩ :=
        recalcAcc_step st3 T toAcc hT (pA3 _ (pA2 _ (pA1 _ h4)))
      refine ⟨st4, ?_, by rw [t4, t3, t2, t1], by rw [f4, f3, f2, f1], by rw [n4, n3, n2, n1]⟩
      simp only [createTransferRecalcs, e1, e2, e3, e4]
      rw [if_pos hss, if_pos haa]

/-- Full characterization of a successful Transfer creation: the operation
returns the pre-allocated source id and the final `transactions` collection
is the original one with exactly the Outgoing and Incoming halves written by
the single two-write batch. -/
theorem createTransaction_transfer_run (st : Store) (T : String) (tin : TxnInput)
    (toAcc toSub : Nat)
    (hT : requireUserId T = Except.ok T)
    (hType : tin.transactionType = "Transfer")
    (hAmt : 0 < tin.amount)
    (hToA : tin.toAccountId = some toAcc) (hToS : tin.toSubAccountId = some toSub)
    (hA : ownedAcc st T tin.accountId) (hS : ownedSub st T tin.subAccountId)
    (hB : ownedAcc st T toAcc) (hS2 : ownedSub st T toSub) :
    ∃ st', createTransaction T tin st = (Except.ok st.nextId, st') ∧
      st'.transactions =
        setDoc (setDoc st.transactions st.nextId
            (transferSourceDoc T tin toAcc toSub (st.nextId + 1)))
          (st.nextId + 1) (transferDestDoc T tin toAcc toSub st.nextId) ∧
      st'.favorites = st.favorites := by
  obtain ⟨da, hAl, hAo⟩ := hA
  obtain ⟨ds, hSl, hSo⟩ := hS
  obtain ⟨db, hBl, hBo⟩ := hB
  obtain ⟨ds2, hS2l, hS2o⟩ := hS2
  have hvt : validateTransactionType "Transfer" = Except.ok "Transfer" := by decide
  have hva : validateAmount tin.amount = Except.ok tin.amount := by
    simp [validateAmount, not_le.mpr hAmt]
  have hga := getAccount_ok st T tin.accountId da hT hAl hAo
  have hgs := getSubAccount_ok st T tin.subAccountId ds hT hSl hSo
  have hgb := getAccount_ok st T toAcc db hT hBl hBo
  have hgs2 := getSubAccount_ok st T toSub ds2 hT hS2l hS2o
  obtain ⟨st', e, ht, hf, hn⟩ := createTransferRecalcs_run
      (applyBatch (st.withNextId (st.nextId + 2))
        [BatchOp.setTransaction st.nextId (transferSourceDoc T tin toAcc toSub (st.nextId + 1)),
         BatchOp.setTransaction (st.nextId + 1) (transferDestDoc T tin toAcc toSub st.nextId)])
      T tin toAcc toSub st.nextId hT
      ⟨ds, hSl, hSo⟩ ⟨da, hAl, hAo⟩ ⟨ds2, hS2l, hS2o⟩ ⟨db, hBl, hBo⟩
  refine ⟨st', ?_, ?_, ?_⟩
  · simp only [createTransaction, hT, hType, hvt, hva, hga, hgs, hgb, hgs2, hToA, hToS,
      if_pos rfl]
    exact e
  · rw [ht]
    rfl
  · rw [hf]
    rfl

theorem lookupDoc_none_of_big {α : Type} (l : List (Nat × α)) (n : Nat)
    (h : ∀ p ∈ l, p.1 < n) (m : Nat) (hm : n ≤ m) : lookupDoc l m = none := by
  induction l with
  | nil => rfl
  | cons p l ih =>
    have hp : p.1 ≠ m :=
      Nat.ne_of_lt (lt_of_lt_of_le (h p (List.mem_cons_self p l)) hm)
    simp [lookupDoc, hp, ih (fun q hq => h q (List.mem_cons_of_mem p hq))]

/-- C2: a successful Transfer creation (tenant owns source and destination
Account and SubAccount, amount positive) writes exactly two fresh Transaction
documents in its one batch — an Outgoing half on the source SubAccount and an
Incoming half on the destination SubAccount, each carrying the other's id as
`linkedTransactionId` — and touches no other Transaction document. -/
theorem createTransaction_transfer_pair (st : Store) (T : String) (tin : TxnInput)
    (toAcc toSub : Nat)
    (hT : requireUserId T = Except.ok T)
    (hType : tin.transactionType = "Transfer")
    (hAmt : 0 < tin.amount)
    (hToA : tin.toAccountId = some toAcc) (hToS : tin.toSubAccountId = some toSub)
    (hA : ownedAcc st T tin.accountId) (hS : ownedSub st T tin.subAccountId)
    (hB : ownedAcc st T toAcc) (hS2 : ownedSub st T toSub)
    (hFresh : ∀ p ∈ st.transactions, p.1 < st.nextId) :
    ∃ st', createTransaction T tin st = (Except.ok st.nextId, st') ∧
      lookupDoc st.transactions st.nextId = none ∧
      lookupDoc st.transactions (st.nextId + 1) = none ∧
      lookupDoc st'.transactions st.nextId =
        some (transferSourceDoc T tin toAcc toSub (st.nextId + 1)) ∧
      lookupDoc st'.transactions (st.nextId + 1) =
        some (transferDestDoc T tin toAcc toSub st.nextId) ∧
      (transferSourceDoc T tin toAcc toSub (st.nextId + 1)).transferType = some "Outgoing" ∧
      (transferSourceDoc T tin toAcc toSub (st.nextId + 1)).linkedTransactionId = some (st.nextId + 1) ∧
      (transferSourceDoc T tin toAcc toSub (st.nextId + 1)).subAccountId = tin.subAccountId ∧
      (transferDestDoc T tin toAcc toSub st.nextId).transferType = some "Incoming" ∧
      (transferDestDoc T tin toAcc toSub st.nextId).linkedTransactionId = some st.nextId ∧
      (transferDestDoc T tin toAcc toSub st.nextId).subAccountId = toSub ∧
      (∀ j, j ≠ st.nextId → j ≠ st.nextId + 1 →
        lookupDoc st'.transactions j = lookupDoc st.transactions j) := by
  obtain ⟨st', e, htr, _⟩ :=
    createTransaction_transfer_run st T tin toAcc toSub hT hType hAmt hToA hToS hA hS hB hS2
  have hne : st.nextId ≠ st.nextId + 1 := by omega
  refine ⟨st', e, lookupDoc_none_of_big st.transactions st.nextId hFresh st.nextId le_rfl,
    lookupDoc_none_of_big st.transactions st.nextId hFresh (st.nextId + 1) (Nat.le_succ _),
    ?_, ?_, rfl, rfl, rfl, rfl, rfl, rfl, ?_⟩
  · rw [htr, lookupDoc_setDoc_ne _ _ _ _ hne, lookupDoc_setDoc_self]
  · rw [htr, lookupDoc_setDoc_self]
  · intro j h1 h2
    rw [htr, lookupDoc_setDoc_ne _ _ _ _ h2, lookupDoc_setDoc_ne _ _ _ _ h1]

def transferAccount2 : AccountDoc := AccountDoc.mk "u1" "Asset" "Savings" 0 false "#2196f3"

def transferSub2 : SubAccountDoc := SubAccountDoc.mk "u1" 2 "Stash" 0 false "#2196f3"

def transferStore : Store :=
  Store.mk [(1, demoAccount), (2, transferAccount2)]
    [(10, demoSub), (20, transferSub2)] [] [] 300

def transferInput : TxnInput :=
  TxnInput.mk 1 10 "Transfer" 7 "move" "" [] (some 2) (some 20)

/-- Witness for C2: a concrete Transfer of 7 between two owned sub-accounts
writes the linked Outgoing/Incoming pair with the pre-allocated ids. -/
theorem createTransaction_transfer_pair_witness :
    ∃ st', createTransaction "u1" transferInput transferStore = (Except.ok transferStore.nextId, st') ∧
      lookupDoc transferStore.transactions transferStore.nextId = none ∧
      lookupDoc transferStore.transactions (transferStore.nextId + 1) = none ∧
      lookupDoc st'.transactions transferStore.nextId =
        some (transferSourceDoc "u1" transferInput 2 20 (transferStore.nextId + 1)) ∧
      lookupDoc st'.transactions (transferStore.nextId + 1) =
        some (transferDestDoc "u1" transferInput 2 20 transferStore.nextId) ∧
      (transferSourceDoc "u1" transferInput 2 20 (transferStore.nextId + 1)).transferType = some "Outgoing" ∧
      (transferSourceDoc "u1" transferInput 2 20 (transferStore.nextId + 1)).linkedTransactionId = some (transferStore.nextId + 1) ∧
      (transferSourceDoc "u1" transferInput 2 20 (transferStore.nextId + 1)).subAccountId = transferInput.subAccountId ∧
      (transferDestDoc "u1" transferInput 2 20 transferStore.nextId).transferType = some "Incoming" ∧
      (transferDestDoc "u1" transferInput 2 20 transferStore.nextId).linkedTransactionId = some transferStore.nextId ∧
      (transferDestDoc "u1" transferInput 2 20 transferStore.nextId).subAccountId = 20 ∧
      (∀ j, j ≠ transferStore.nextId → j ≠ transferStore.nextId + 1 →
        lookupDoc st'.transactions j = lookupDoc transferStore.transactions j) :=
  createTransaction_transfer_pair transferStore "u1" transferInput 2 20
    (by decide) (by decide) (by decide) (by decide) (by decide)
    ⟨demoAccount, by decide, by decide⟩ ⟨demoSub, by decide, by decide⟩
    ⟨transferAccount2, by decide, by decide⟩ ⟨transferSub2, by decide, by decide⟩
    (by decide)

/-- C10: for a successful Transfer creation, the returned id is the id of the
Outgoing (source-side) half — the document on the source SubAccount — not the
id of the Incoming destination-side counterpart. -/
theorem createTransaction_returns_outgoing_id (st : Store) (T : String) (tin : TxnInput)
    (toAcc toSub : Nat)
    (hT : requireUserId T = Except.ok T)
    (hType : tin.transactionType = "Transfer")
    (hAmt : 0 < tin.amount)
    (hToA : tin.toAccountId = some toAcc) (hToS : tin.toSubAccountId = some toSub)
    (hA : ownedAcc st T tin.accountId) (hS : ownedSub st T tin.subAccountId)
    (hB : ownedAcc st T toAcc) (hS2 : ownedSub st T toSub) :
    ∃ st' i, createTransaction T tin st = (Except.ok i, st') ∧
      lookupDoc st'.transactions i =
        some (transferSourceDoc T tin toAcc toSub (st.nextId + 1)) ∧
      (transferSourceDoc T tin toAcc toSub (st.nextId + 1)).transferType = some "Outgoing" ∧
      (transferSourceDoc T tin toAcc toSub (st.nextId + 1)).accountId = tin.accountId ∧
      (transferSourceDoc T tin toAcc toSub (st.nextId + 1)).subAccountId = tin.subAccountId ∧
      i ≠ st.nextId + 1 ∧
      lookupDoc st'.transactions (st.nextId + 1) =
        some (transferDestDoc T tin toAcc toSub st.nextId) ∧
      (transferDestDoc T tin toAcc toSub st.nextId).transferType = some "Incoming" := by
  obtain ⟨st', e, htr, _⟩ :=
    createTransaction_transfer_run st T tin toAcc toSub hT hType hAmt hToA hToS hA hS hB hS2
  have hne : st.nextId ≠ st.nextId + 1 := by omega
  refine ⟨st', st.nextId, e, ?_, rfl, rfl, rfl, hne, ?_, rfl⟩
  · rw [htr, lookupDoc_setDoc_ne _ _ _ _ hne, lookupDoc_setDoc_self]
  · rw [htr, lookupDoc_setDoc_self]

/-- Witness for C10: on the concrete transfer store the returned id names the
Outgoing half on source sub-account 10, not the Incoming half. -/
theorem createTransaction_returns_outgoing_id_witness :
    ∃ st' i, createTransaction "u1" transferInput transferStore = (Except.ok i, st') ∧
      lookupDoc st'.transactions i =
        some (transferSourceDoc "u1" transferInput 2 20 (transferStore.nextId + 1)) ∧
      (transferSourceDoc "u1" transferInput 2 20 (transferStore.nextId + 1)).transferType = some "Outgoing" ∧
      (transferSourceDoc "u1" transferInput 2 20 (transferStore.nextId + 1)).accountId = transferInput.accountId ∧
      (transferSourceDoc "u1" transferInput 2 20 (transferStore.nextId + 1)).subAccountId = transferInput.subAccountId ∧
      i ≠ transferStore.nextId + 1 ∧
      lookupDoc st'.transactions (transferStore.nextId + 1) =
        some (transferDestDoc "u1" transferInput 2 20 transferStore.nextId) ∧
      (transferDestDoc "u1" transferInput 2 20 transferStore.nextId).transferType = some "Incoming" :=
  createTransaction_returns_outgoing_id transferStore "u1" transferInput 2 20
    (by decide) (by decide) (by decide) (by decide) (by decide)
    ⟨demoAccount, by decide, by decide⟩ ⟨demoSub, by decide, by decide⟩
    ⟨transferAccount2, by decide, by decide⟩ ⟨transferSub2, by decide, by decide⟩

/-!
Componentwise analysis of cascade batches: which document ids each batch
deletes from each collection.
-/

def deleteIds {α : Type} : List (Nat × α) → List Nat → List (Nat × α)
  | l, [] => l
  | l, i :: ids => deleteIds (delDoc l i) ids

def subDelIds (b : List BatchOp) : List Nat :=
  b.filterMap (fun op =>
    match op with
    | BatchOp.delSubAccount i => some i
    | _ => none)

def accDelIds (b : List BatchOp) : List Nat :=
  b.filterMap (fun op =>
    match op with
    | BatchOp.delAccount i => some i
    | _ => none)

def favDelIds (b : List BatchOp) : List Nat :=
  b.filterMap (fun op =>
    match op with
    | BatchOp.delFavorite i => some i
    | _ => none)

def txnDelIds (b : List BatchOp) : List Nat :=
  b.filterMap (fun op =>
    match op with
    | BatchOp.delTransaction i => some i
    | _ => none)

/-- A batch that never sets or patches a transaction document. -/
def txnDelOnly (b : List BatchOp) : Prop :=
  ∀ op ∈ b,
    (match op with
     | BatchOp.setTransaction _ _ => False
     | BatchOp.updTransaction _ _ => False
     | _ => True)

theorem applyBatch_subAccounts (b : List BatchOp) (st : Store) :
    (applyBatch st b).subAccounts = deleteIds st.subAccounts (subDelIds b) := by
  induction b generalizing st with
  | nil => rfl
  | cons op b ih =>
    cases op with
    | setTransaction i d => exact ih _
    | updTransaction i p => exact ih _
    | delTransaction i => exact ih _
    | delSubAccount i => exact ih _
    | delAccount i => exact ih _
    | delFavorite i => exact ih _

theorem applyBatch_accounts (b : List BatchOp) (st : Store) :
    (applyBatch st b).accounts = deleteIds st.accounts (accDelIds b) := by
  induction b generalizing st with
  | nil => rfl
  | cons op b ih =>
    cases op with
    | setTransaction i d => exact ih _
    | updTransaction i p => exact ih _
    | delTransaction i => exact ih _
    | delSubAccount i => exact ih _
    | delAccount i => exact ih _
    | delFavorite i => exact ih _

theorem applyBatch_favorites (b : List BatchOp) (st : Store) :
    (applyBatch st b).favorites = deleteIds st.favorites (favDelIds b) := by
  induction b generalizing st with
  | nil => rfl
  | cons op b ih =>
    cases op with
    | setTransaction i d => exact ih _
    | updTransaction i p => exact ih _
    | delTransaction i => exact ih _
    | delSubAccount i => exact ih _
    | delAccount i => exact ih _
    | delFavorite i => exact ih _

theorem applyBatch_transactions (b : List BatchOp) (st : Store) (h : txnDelOnly b) :
    (applyBatch st b).transactions = deleteIds st.transactions (txnDelIds b) := by
  induction b generalizing st with
  | nil => rfl
  | cons op b ih =>
    have hop := h op (List.mem_cons_self op b)
    have hrest : txnDelOnly b := fun q hq => h q (List.mem_cons_of_mem op hq)
    cases op with
    | setTransaction i d => exact absurd hop (by simp)
    | updTransaction i p => exact absurd hop (by simp)
    | delTransaction i => exact ih _ hrest
    | delSubAccount i => exact ih _ hrest
    | delAccount i => exact ih _ hrest
    | delFavorite i => exact ih _ hrest

theorem lookupDoc_deleteIds_none {α : Type} (l : List (Nat × α)) (ids : List Nat)
    (j : Nat) (h : lookupDoc l j = none) : lookupDoc (deleteIds l ids) j = none := by
  induction ids generalizing l with
  | nil => exact h
  | cons i ids ih =>
    apply ih
    by_cases hc : j = i
    · subst hc
      exact lookupDoc_delDoc_self l j
    · rw [lookupDoc_delDoc_ne l i j hc]
      exact h

theorem lookupDoc_deleteIds_mem {α : Type} (l : List (Nat × α)) (ids : List Nat)
    (j : Nat) (h : j ∈ ids) : lookupDoc (deleteIds l ids) j = none := by
  induction ids generalizing l with
  | nil => cases h
  | cons i ids ih =>
    rcases List.mem_cons.mp h with hc | hc
    · subst hc
      exact lookupDoc_deleteIds_none (delDoc l j) ids j (lookupDoc_delDoc_self l j)
    · exact ih (delDoc l i) hc

theorem mem_deleteIds {α : Type} (l : List (Nat × α)) (ids : List Nat) (p : Nat × α) :
    p ∈ deleteIds l ids ↔ p ∈ l ∧ p.1 ∉ ids := by
  induction ids generalizing l with
  | nil => simp [deleteIds]
  | cons i ids ih =>
    rw [deleteIds, ih, mem_delDoc]
    constructor
    · rintro ⟨⟨hm, hne⟩, hnm⟩
      refine ⟨hm, ?_⟩
      intro hcon
      rcases List.mem_cons.mp hcon with hc | hc
      · exact hne hc
      · exact hnm hc
    · rintro ⟨hm, hnm⟩
      exact ⟨⟨hm, fun hc => hnm (List.mem_cons.mpr (Or.inl hc))⟩,
             fun hc => hnm (List.mem_cons.mpr (Or.inr hc))⟩

theorem filterMap_map_none {α β γ : Type} (l : List α) (g : α → β) (f : β → Option γ)
    (h : ∀ a, f (g a) = none) : (l.map g).filterMap f = [] := by
  induction l with
  | nil => rfl
  | cons a l ih => simp [List.filterMap_cons, h, ih]

theorem accDelIds_deleteSubAccountBatch (st : Store) (v : String) (S : Nat) :
    accDelIds (deleteSubAccountBatch st v S) = [] := by
  unfold deleteSubAccountBatch accDelIds
  rw [List.filterMap_append, List.filterMap_append]
  rw [filterMap_map_none _ _ _ (fun a => rfl), filterMap_map_none _ _ _ (fun a => rfl)]
  rfl

theorem subDelIds_deleteSubAccountBatch_mem (st : Store) (v : String) (S : Nat) :
    S ∈ subDelIds (deleteSubAccountBatch st v S) := by
  apply List.mem_filterMap.mpr
  refine ⟨BatchOp.delSubAccount S, ?_, rfl⟩
  unfold deleteSubAccountBatch
  exact List.mem_append.mpr (Or.inl (List.mem_append.mpr (Or.inr (List.mem_singleton.mpr rfl))))

/-- C5: the source of `deleteSubAccount` commits the cascade batch (the
sub-account, its transactions and favorites are deleted) but then re-reads
the just-deleted sub-account to find the parent, so for EVERY owned
sub-account the operation throws `Sub-account not found` after the commit and
the parent account's `totalBalance` is never recomputed (the `accounts`
collection is untouched) — the claimed successful recomputation never
happens. -/
theorem deleteSubAccount_commits_then_fails (st : Store) (T : String) (S : Nat)
    (d : SubAccountDoc)
    (hT : requireUserId T = Except.ok T)
    (hS : lookupDoc st.subAccounts S = some d)
    (hOwn : d.userId = T) :
    deleteSubAccount T S st =
      (Except.error (DbErr.notFoundError "Sub-account not found"),
       applyBatch st (deleteSubAccountBatch st T S)) ∧
    lookupDoc (applyBatch st (deleteSubAccountBatch st T S)).subAccounts S = none ∧
    (applyBatch st (deleteSubAccountBatch st T S)).accounts = st.accounts := by
  have hnone : lookupDoc (applyBatch st (deleteSubAccountBatch st T S)).subAccounts S = none := by
    rw [applyBatch_subAccounts]
    exact lookupDoc_deleteIds_mem _ _ _ (subDelIds_deleteSubAccountBatch_mem st T S)
  have hfail : getSubAccount T S (applyBatch st (deleteSubAccountBatch st T S)) =
      Except.error (DbErr.notFoundError "Sub-account not found") := by
    simp [getSubAccount, hT, hnone]
  have hacc : (applyBatch st (deleteSubAccountBatch st T S)).accounts = st.accounts := by
    rw [applyBatch_accounts, accDelIds_deleteSubAccountBatch]
    rfl
  refine ⟨?_, hnone, hacc⟩
  simp only [deleteSubAccount, hT, getSubAccount_ok st T S d hT hS hOwn, hfail]

def cascadeStore : Store :=
  Store.mk [(1, AccountDoc.mk "u1" "Asset" "Bank" 5 false "#2196f3")]
    [(10, SubAccountDoc.mk "u1" 1 "Cash" 5 false "#2196f3")]
    [(100, demoTxnIncome)] [(500, FavoriteDoc.mk "u1" none (some 10) "subAccount")] 600

/-- Witness for C5: a concrete owned sub-account with one transaction and one
favorite — the cascade is committed, the operation still reports
`Sub-account not found`, and the parent account keeps its stale balance. -/
theorem deleteSubAccount_commits_then_fails_witness :
    deleteSubAccount "u1" 10 cascadeStore =
      (Except.error (DbErr.notFoundError "Sub-account not found"),
       applyBatch cascadeStore (deleteSubAccountBatch cascadeStore "u1" 10)) ∧
    lookupDoc (applyBatch cascadeStore (deleteSubAccountBatch cascadeStore "u1" 10)).subAccounts 10 = none ∧
    (applyBatch cascadeStore (deleteSubAccountBatch cascadeStore "u1" 10)).accounts = cascadeStore.accounts :=
  deleteSubAccount_commits_then_fails cascadeStore "u1" 10
    (SubAccountDoc.mk "u1" 1 "Cash" 5 false "#2196f3") (by decide) (by decide) (by decide)

theorem accDelIds_deleteAccountBatch_mem (st : Store) (v : String) (A : Nat) :
    A ∈ accDelIds (deleteAccountBatch st v A) := by
  apply List.mem_filterMap.mpr
  refine ⟨BatchOp.delAccount A, ?_, rfl⟩
  unfold deleteAccountBatch
  exact List.mem_append.mpr (Or.inl (List.mem_append.mpr (Or.inr (List.mem_singleton.mpr rfl))))

theorem subDelIds_deleteAccountBatch_mem (st : Store) (v : String) (A : Nat)
    (p : Nat × SubAccountDoc) (hp : p ∈ subAccountsByAccountQ st v A) :
    p.1 ∈ subDelIds (deleteAccountBatch st v A) := by
  apply List.mem_filterMap.mpr
  refine ⟨BatchOp.delSubAccount p.1, ?_, rfl⟩
  unfold deleteAccountBatch
  refine List.mem_append.mpr (Or.inl (List.mem_append.mpr (Or.inl ?_)))
  apply List.mem_flatten.mpr
  refine ⟨(transactionsBySubAccountQ st v p.1).map (fun q => BatchOp.delTransaction q.1) ++
      [BatchOp.delSubAccount p.1], List.mem_map.mpr ⟨p, hp, rfl⟩, ?_⟩
  exact List.mem_append.mpr (Or.inr (List.mem_singleton.mpr rfl))

theorem favDelIds_deleteAccountBatch_mem (st : Store) (v : String) (A : Nat)
    (p : Nat × FavoriteDoc) (hp : p ∈ favoritesByAccountQ st v A) :
    p.1 ∈ favDelIds (deleteAccountBatch st v A) := by
  apply List.mem_filterMap.mpr
  refine ⟨BatchOp.delFavorite p.1, ?_, rfl⟩
  unfold deleteAccountBatch
  exact List.mem_append.mpr (Or.inr (List.mem_map.mpr ⟨p, hp, rfl⟩))

theorem txnDelIds_deleteAccountBatch_mem (st : Store) (v : String) (A : Nat)
    (q : Nat × SubAccountDoc) (hq : q ∈ subAccountsByAccountQ st v A)
    (r : Nat × TransactionDoc) (hr : r ∈ transactionsBySubAccountQ st v q.1) :
    r.1 ∈ txnDelIds (deleteAccountBatch st v A) := by
  apply List.mem_filterMap.mpr
  refine ⟨BatchOp.delTransaction r.1, ?_, rfl⟩
  unfold deleteAccountBatch
  refine List.mem_append.mpr (Or.inl (List.mem_append.mpr (Or.inl ?_)))
  apply List.mem_flatten.mpr
  refine ⟨(transactionsBySubAccountQ st v q.1).map (fun x => BatchOp.delTransaction x.1) ++
      [BatchOp.delSubAccount q.1], List.mem_map.mpr ⟨q, hq, rfl⟩, ?_⟩
  exact List.mem_append.mpr (Or.inl (List.mem_map.mpr ⟨r, hr, rfl⟩))

theorem txnDelOnly_deleteAccountBatch (st : Store) (v : String) (A : Nat) :
    txnDelOnly (deleteAccountBatch st v A) := by
  intro op hop
  unfold deleteAccountBatch at hop
  rcases List.mem_append.mp hop with h1 | h1
  · rcases List.mem_append.mp h1 with h2 | h2
    · rcases List.mem_flatten.mp h2 with ⟨l, hl, hop2⟩
      rcases List.mem_map.mp hl with ⟨q, hq, hlq⟩
      rw [← hlq] at hop2
      rcases List.mem_append.mp hop2 with h3 | h3
      · rcases List.mem_map.mp h3 with ⟨r, hr, hrq⟩
        rw [← hrq]
        trivial
      · rw [List.mem_singleton.mp h3]
        trivial
    · rw [List.mem_singleton.mp h2]
      trivial
  · rcases List.mem_map.mp h1 with ⟨q, hq, hlq⟩
    rw [← hlq]
    trivial

/-- C4 amended: after a successful `deleteAccount(T, A)` — performed as one
atomic cascade batch — the account A is gone, no SubAccount of T has
`accountId = A`, no Favorite of T has `accountId = A`, and every Transaction
of T that lived on one of A's child SubAccounts is gone.  (Transactions of T
on OTHER accounts' sub-accounts survive and may still carry A's id in
`accountId`, `toAccountId` or `fromAccountId`; see the counterexample.) -/
theorem deleteAccount_cascade (st : Store) (T : String) (A : Nat) (a : AccountDoc)
    (hT : requireUserId T = Except.ok T)
    (hA : lookupDoc st.accounts A = some a) (hOwn : a.userId = T) :
    deleteAccount T A st = (Except.ok (), applyBatch st (deleteAccountBatch st T A)) ∧
    lookupDoc (applyBatch st (deleteAccountBatch st T A)).accounts A = none ∧
    (∀ p ∈ (applyBatch st (deleteAccountBatch st T A)).subAccounts,
       p.2.userId = T → p.2.accountId ≠ A) ∧
    (∀ p ∈ (applyBatch st (deleteAccountBatch st T A)).favorites,
       p.2.userId = T → p.2.accountId ≠ some A) ∧
    (∀ p ∈ (applyBatch st (deleteAccountBatch st T A)).transactions,
       p.2.userId = T → p.2.subAccountId ∉ (subAccountsByAccountQ st T A).map Prod.fst) := by
  refine ⟨?_, ?_, ?_, ?_, ?_⟩
  · simp only [deleteAccount, hT, getAccount_ok st T A a hT hA hOwn]
  · rw [applyBatch_accounts]
    exact lookupDoc_deleteIds_mem _ _ _ (accDelIds_deleteAccountBatch_mem st T A)
  · intro p hp hu hacc
    rw [applyBatch_subAccounts] at hp
    obtain ⟨hmem, hnot⟩ := (mem_deleteIds _ _ _).mp hp
    have hq : p ∈ subAccountsByAccountQ st T A :=
      List.mem_filter.mpr ⟨hmem, by simp [hu, hacc]⟩
    exact hnot (subDelIds_deleteAccountBatch_mem st T A p hq)
  · intro p hp hu hacc
    rw [applyBatch_favorites] at hp
    obtain ⟨hmem, hnot⟩ := (mem_deleteIds _ _ _).mp hp
    have hq : p ∈ favoritesByAccountQ st T A := by
      refine List.mem_filter.mpr ⟨?_, by simp [hacc]⟩
      exact List.mem_filter.mpr ⟨hmem, by simp [hu]⟩
    exact hnot (favDelIds_deleteAccountBatch_mem st T A p hq)
  · intro p hp hu hmemS
    rw [applyBatch_transactions _ _ (txnDelOnly_deleteAccountBatch st T A)] at hp
    obtain ⟨hmem, hnot⟩ := (mem_deleteIds _ _ _).mp hp
    rcases List.mem_map.mp hmemS with ⟨q, hq, hq1⟩
    have hr : p ∈ transactionsBySubAccountQ st T q.1 :=
      List.mem_filter.mpr ⟨hmem, by simp [hu, hq1]⟩
    exact hnot (txnDelIds_deleteAccountBatch_mem st T A q hq p hr)

def cx4OutTxn : TransactionDoc :=
  TransactionDoc.mk "u1" 2 20 "Transfer" 7 "" "" [] (some "Outgoing") (some 101)
    (some 1) (some 10) none none

def cx4InTxn : TransactionDoc :=
  TransactionDoc.mk "u1" 1 10 "Transfer" 7 "" "" [] (some "Incoming") (some 100)
    none none (some 2) (some 20)

def cx4Store : Store :=
  Store.mk [(1, demoAccount), (2, transferAccount2)]
    [(10, demoSub), (20, transferSub2)]
    [(100, cx4OutTxn), (101, cx4InTxn)] [] 700

/-- Counterexample to C4 as stated: tenant u1 transferred from sub-account 20
(under account 2) into sub-account 10 (under account 1); deleting account 1
succeeds and removes the Incoming half (it lives on account 1's child), but
the surviving Outgoing half — a document of the same tenant — still
references the deleted account's id in its `toAccountId` field, so the claim
that zero documents of the tenant reference the id in any field fails. -/
theorem deleteAccount_leaves_reference_counterexample :
    (deleteAccount "u1" 1 cx4Store).1 = Except.ok () ∧
    lookupDoc (deleteAccount "u1" 1 cx4Store).2.accounts 1 = none ∧
    lookupDoc (deleteAccount "u1" 1 cx4Store).2.transactions 101 = none ∧
    lookupDoc (deleteAccount "u1" 1 cx4Store).2.transactions 100 = some cx4OutTxn ∧
    cx4OutTxn.userId = "u1" ∧
    cx4OutTxn.toAccountId = some 1 := by
  decide

/-- Witness for C4 (amended): the cascade theorem applied to the
counterexample store. -/
theorem deleteAccount_cascade_witness :
    deleteAccount "u1" 1 cx4Store =
      (Except.ok (), applyBatch cx4Store (deleteAccountBatch cx4Store "u1" 1)) ∧
    lookupDoc (applyBatch cx4Store (deleteAccountBatch cx4Store "u1" 1)).accounts 1 = none ∧
    (∀ p ∈ (applyBatch cx4Store (deleteAccountBatch cx4Store "u1" 1)).subAccounts,
       p.2.userId = "u1" → p.2.accountId ≠ 1) ∧
    (∀ p ∈ (applyBatch cx4Store (deleteAccountBatch cx4Store "u1" 1)).favorites,
       p.2.userId = "u1" → p.2.accountId ≠ some 1) ∧
    (∀ p ∈ (applyBatch cx4Store (deleteAccountBatch cx4Store "u1" 1)).transactions,
       p.2.userId = "u1" → p.2.subAccountId ∉ (subAccountsByAccountQ cx4Store "u1" 1).map Prod.fst) :=
  deleteAccount_cascade cx4Store "u1" 1 demoAccount (by decide) (by decide) (by decide)

def cs6Txn : TransactionDoc :=
  TransactionDoc.mk "u1" 1 10 "Income" 5 "" "" [] none none none none none none

def cs6Store : Store :=
  Store.mk [(1, demoAccount), (2, transferAccount2)] [(10, demoSub)] [(100, cs6Txn)] [] 800

def cs6Patch : TxnPatch := TxnPatch.mk none (some 2) none none none none none none none

/-- C6 fails on the code: the strip condition is inverted — the source
deletes `accountId`/`subAccountId` from the payload when they EQUAL the
stored values and keeps them when they differ, so an update whose payload
carries a different `accountId` succeeds and overwrites the supposedly
immutable stored `accountId` (here from 1 to 2). -/
theorem updateTransaction_mutates_accountId :
    cs6Txn.accountId = 1 ∧
    (updateTransaction "u1" 100 cs6Patch cs6Store).1 = Except.ok () ∧
    (lookupDoc (updateTransaction "u1" 100 cs6Patch cs6Store).2.transactions 100).map
        TransactionDoc.accountId = some 2 := by
  decide

def cs7Input : TxnInput := TxnInput.mk 1 10 "Income" 0 "" "" [] none none

def cs7Patch : TxnPatch := TxnPatch.mk none none none none (some 0) none none none none

/-- C7 fails on the code: `createTransaction` does reject a non-positive
amount, but `updateTransaction` guards its re-validation with JS truthiness
(`if (updateData.amount)`), so a payload with `amount: 0` skips
`validateAmount` and the zero amount is written, breaking the
strictly-positive-amount invariant. -/
theorem updateTransaction_writes_zero_amount :
    (createTransaction "u1" cs7Input cs6Store).1 =
      Except.error (DbErr.validationError "Invalid amount: must be a positive number") ∧
    (updateTransaction "u1" 100 cs7Patch cs6Store).1 = Except.ok () ∧
    (lookupDoc (updateTransaction "u1" 100 cs7Patch cs6Store).2.transactions 100).map
        TransactionDoc.amount = some 0 := by
  decide

/-- Counterexample to C9 as stated: `addFavorite` only rejects the call when
BOTH ids are absent, so passing both stores a Favorite with BOTH `accountId`
and `subAccountId` non-null — "exactly one is set" fails. -/
theorem addFavorite_both_set_counterexample :
    (addFavorite "u1" (some 1) (some 10) demoStore).1 = Except.ok demoStore.nextId ∧
    lookupDoc (addFavorite "u1" (some 1) (some 10) demoStore).2.favorites demoStore.nextId =
      some (FavoriteDoc.mk "u1" (some 1) (some 10) "account") := by
  decide

/-- C9 amended: every Favorite written by `addFavorite` carries the caller's
ids unchanged, so AT LEAST one of `accountId` / `subAccountId` is non-null
(exactly one whenever the caller passes exactly one), and `favoriteType` is
derived from the presence of `accountId` alone. -/
theorem addFavorite_at_least_one (st : Store) (T : String) (acc sub : Option Nat)
    (hT : requireUserId T = Except.ok T)
    (h : ¬(acc = none ∧ sub = none)) :
    addFavorite T acc sub st =
      (Except.ok st.nextId,
       (st.withFavorites (setDoc st.favorites st.nextId
          (FavoriteDoc.mk T acc sub (if acc.isSome then "account" else "subAccount")))).withNextId
         (st.nextId + 1)) ∧
    (acc ≠ none ∨ sub ≠ none) := by
  constructor
  · simp [addFavorite, hT, h]
  · rcases acc with _ | a2
    · rcases sub with _ | s2
      · exact absurd ⟨rfl, rfl⟩ h
      · exact Or.inr (by simp)
    · exact Or.inl (by simp)

/-- Witness for C9 (amended): adding a favorite for an account alone yields a
Favorite with exactly the given ids. -/
theorem addFavorite_at_least_one_witness :
    addFavorite "u1" (some 1) none demoStore =
      (Except.ok demoStore.nextId,
       (demoStore.withFavorites (setDoc demoStore.favorites demoStore.nextId
          (FavoriteDoc.mk "u1" (some 1) none
            (if (some 1 : Option Nat).isSome then "account" else "subAccount")))).withNextId
         (demoStore.nextId + 1)) ∧
    ((some 1 : Option Nat) ≠ none ∨ (none : Option Nat) ≠ none) :=
  addFavorite_at_least_one demoStore "u1" (some 1) none (by decide) (by decide)
